import Mathlib

/-!
Verification of the ColorSign repository's specification claims against a
shallow embedding of its C++ sources.

Conventions of the embedding:
* `uint8_t` / `uint32_t` values are `Nat` with explicit `% 2 ^ 8` / `% 2 ^ 32`
  wherever the machine arithmetic can wrap; `int32_t` / `int64_t` values are
  `Int` with explicit two's-complement wrapping where the source relies on it.
* `std::vector` is `List`; an in-place loop becomes a fold or a structural
  recursion over the same iteration sequence.
* functions that `throw` return `Except String` / `Except SecurityError`;
  a rejection-sampling loop (unbounded `while (true)`) takes explicit fuel
  and returns `Option`.
* an extendable-output stream (SHAKE squeeze) is a function `Nat → Nat`
  giving the byte at each stream position, consumed at a running offset.
-/

namespace ColorSign

/-- The ML-DSA prime modulus q = 8380417, used by every parameter set. -/
def Q : Nat := 8380417

/-! ## Parameter sets and serialized sizes (claim C3)

The repository's key/signature serializers and its parameter struct are not
among the provided sources (only tests and callers are), so the sizes are
modelled from the spec. -/

/-- Modelled from the spec: the three ML-DSA parameter sets (spec §3 table);
the source repository's `CLWEParameters` struct is not among the provided
sources. -/
inductive ParamSet
  | mldsa44
  | mldsa65
  | mldsa87
deriving DecidableEq

/-- Modelled from the spec: matrix row dimension k (spec §3 table). -/
def ParamSet.k : ParamSet → Nat
  | .mldsa44 => 4
  | .mldsa65 => 6
  | .mldsa87 => 8

/-- Modelled from the spec: signing-vector dimension ℓ (spec §3 table). -/
def ParamSet.l : ParamSet → Nat
  | .mldsa44 => 4
  | .mldsa65 => 5
  | .mldsa87 => 7

/-- Modelled from the spec: CBD parameter η (spec §3 table). -/
def ParamSet.eta : ParamSet → Nat
  | .mldsa44 => 2
  | .mldsa65 => 4
  | .mldsa87 => 2

/-- Modelled from the spec: challenge weight τ (spec §3 table). -/
def ParamSet.tau : ParamSet → Nat
  | .mldsa44 => 39
  | .mldsa65 => 49
  | .mldsa87 => 60

/-- Modelled from the spec: hint weight bound ω (spec §3 table). -/
def ParamSet.omega : ParamSet → Nat
  | .mldsa44 => 80
  | .mldsa65 => 55
  | .mldsa87 => 75

/-- Modelled from the spec: collision-strength λ in bits (spec §3 table);
the challenge hash c~ occupies λ/4 bytes. -/
def ParamSet.lambda : ParamSet → Nat
  | .mldsa44 => 128
  | .mldsa65 => 192
  | .mldsa87 => 256

/-- Modelled from the spec: bits per packed s1/s2 coefficient
(3 for η = 2, 4 for η = 4; spec §4.5 packing table). -/
def ParamSet.etaBits : ParamSet → Nat
  | .mldsa44 => 3
  | .mldsa65 => 4
  | .mldsa87 => 3

/-- Modelled from the spec: bits per packed z coefficient
(18 for γ₁ = 2¹⁷, 20 for γ₁ = 2¹⁹; spec §4.5 packing table). -/
def ParamSet.zBits : ParamSet → Nat
  | .mldsa44 => 18
  | .mldsa65 => 20
  | .mldsa87 => 20

/-- Modelled from the spec: public-key size, pk = ρ (32) ‖ pack_t1
(10·256·k/8 bytes) (spec §6 layouts). -/
def pkSize (s : ParamSet) : Nat := 32 + 10 * 256 * s.k / 8

/-- Modelled from the spec: secret-key size,
sk = ρ (32) ‖ K (32) ‖ tr (64) ‖ pack_eta(s1) ‖ pack_eta(s2) ‖ pack_t0(t0)
with ℓ + k η-packed polynomials and k 13-bit-packed polynomials
(spec §6 layouts). -/
def skSize (s : ParamSet) : Nat :=
  32 + 32 + 64 + 256 * s.etaBits * (s.l + s.k) / 8 + 13 * 256 * s.k / 8

/-- Modelled from the spec: signature size,
sig = c~ (λ/4) ‖ pack_z(z) (ℓ polynomials) ‖ pack_h(h) (ω + k bytes)
(spec §6 layouts). -/
def sigSize (s : ParamSet) : Nat :=
  s.lambda / 4 + 256 * s.zBits * s.l / 8 + s.omega + s.k

/-- C3. Serialized artifact sizes are fixed constants of the parameter set:
|pk| is 1312/1952/2592, |sk| is 2560/4032/4896 and |sig| is 2420/3309/4627
bytes for ML-DSA-44/65/87 respectively. -/
theorem serialized_sizes_match_table :
    pkSize .mldsa44 = 1312 ∧ pkSize .mldsa65 = 1952 ∧ pkSize .mldsa87 = 2592 ∧
    skSize .mldsa44 = 2560 ∧ skSize .mldsa65 = 4032 ∧ skSize .mldsa87 = 4896 ∧
    sigSize .mldsa44 = 2420 ∧ sigSize .mldsa65 = 3309 ∧ sigSize .mldsa87 = 4627 := by
  decide

/-! ## Color codec (claim C7, windows/sign/src/core/color_integration.cpp) -/

/-- Body of the `encode_polynomial_as_colors` loop (color_integration.cpp:9-18):
one coefficient is reduced mod `modulus` (unless the modulus is 0) and packed
as 4 RGBA bytes, big-endian. -/
def colorBytes (modulus coeff0 : Nat) : List Nat :=
  let coeff := if modulus ≠ 0 then coeff0 % modulus else coeff0
  [(coeff >>> 24) &&& 0xFF, (coeff >>> 16) &&& 0xFF,
   (coeff >>> 8) &&& 0xFF, coeff &&& 0xFF]

/-- `encode_polynomial_as_colors` (color_integration.cpp:6-22). -/
def encode_polynomial_as_colors (poly : List Nat) (modulus : Nat) : List Nat :=
  poly.flatMap (colorBytes modulus)

/-- Body of the `decode_colors_to_polynomial` loop (color_integration.cpp:32-39):
consume 4 bytes per iteration (`i += 4`), recombine big-endian, reduce mod
`modulus` unless it is 0. -/
def decodeColorWords (modulus : Nat) : List Nat → List Nat
  | b0 :: b1 :: b2 :: b3 :: rest =>
      let coeff := (b0 <<< 24) ||| (b1 <<< 16) ||| (b2 <<< 8) ||| b3
      (if modulus ≠ 0 then coeff % modulus else coeff) :: decodeColorWords modulus rest
  | _ => []

/-- `decode_colors_to_polynomial` (color_integration.cpp:24-42): rejects data
whose size is not a multiple of 4, then recombines 4 bytes per coefficient. -/
def decode_colors_to_polynomial (color_data : List Nat) (modulus : Nat) :
    Except String (List Nat) :=
  if color_data.length % 4 ≠ 0 then
    .error "Color data size must be multiple of 4"
  else
    .ok (decodeColorWords modulus color_data)

/-- `encode_polynomial_vector_as_colors` (color_integration.cpp:44-53):
concatenation of the per-polynomial encodings. -/
def encode_polynomial_vector_as_colors (polyVector : List (List Nat))
    (modulus : Nat) : List Nat :=
  polyVector.flatMap fun poly => encode_polynomial_as_colors poly modulus

/-- The nested loop of `decode_colors_to_polynomial_vector`
(color_integration.cpp:62-73): the running index `idx` walks the flat buffer,
so row `i` is decoded from bytes `4·n·i ..< 4·n·(i+1)`. -/
def decodeColorRows (data : List Nat) (k n m : Nat) : List (List Nat) :=
  match k with
  | 0 => []
  | k' + 1 =>
      decodeColorWords m (data.take (n * 4)) ::
        decodeColorRows (data.drop (n * 4)) k' n m

/-- `decode_colors_to_polynomial_vector` (color_integration.cpp:55-76):
rejects data whose size differs from `k * n * 4`, then decodes k rows of n
coefficients each. -/
def decode_colors_to_polynomial_vector (color_data : List Nat) (k n modulus : Nat) :
    Except String (List (List Nat)) :=
  if color_data.length ≠ k * n * 4 then
    .error "Color data size does not match expected dimensions"
  else
    .ok (decodeColorRows color_data k n modulus)

/-! ### Round-trip proof for the color codec -/

theorem lor_eq_add_of_lt (a b k : Nat) (hb : b < 2 ^ k) (hd : 2 ^ k ∣ a) :
    a ||| b = a + b := by
  obtain ⟨c, rfl⟩ := hd
  exact (Nat.mul_add_lt_is_or hb c).symm

theorem and_255_eq_mod (x : Nat) : x &&& 0xFF = x % 256 := by
  have h : (0xFF : Nat) = 2 ^ 8 - 1 := by norm_num
  rw [h, Nat.and_pow_two_sub_one_eq_mod]

/-- Recombining the four big-endian bytes of a `uint32_t` value recovers it. -/
theorem color_word_roundtrip {c : Nat} (hc : c < 2 ^ 32) :
    ((((c >>> 24) &&& 0xFF) <<< 24) ||| (((c >>> 16) &&& 0xFF) <<< 16) |||
      (((c >>> 8) &&& 0xFF) <<< 8)) ||| (c &&& 0xFF) = c := by
  have hb0 : (c >>> 24) &&& 0xFF = c / 2 ^ 24 % 256 := by
    rw [and_255_eq_mod, Nat.shiftRight_eq_div_pow]
  have hb1 : (c >>> 16) &&& 0xFF = c / 2 ^ 16 % 256 := by
    rw [and_255_eq_mod, Nat.shiftRight_eq_div_pow]
  have hb2 : (c >>> 8) &&& 0xFF = c / 2 ^ 8 % 256 := by
    rw [and_255_eq_mod, Nat.shiftRight_eq_div_pow]
  have hb3 : c &&& 0xFF = c % 256 := and_255_eq_mod c
  have h1 : c / 2 ^ 16 % 256 < 256 := Nat.mod_lt _ (by norm_num)
  have h2 : c / 2 ^ 8 % 256 < 256 := Nat.mod_lt _ (by norm_num)
  have h3 : c % 256 < 256 := Nat.mod_lt _ (by norm_num)
  rw [hb0, hb1, hb2, hb3, Nat.shiftLeft_eq, Nat.shiftLeft_eq, Nat.shiftLeft_eq]
  rw [lor_eq_add_of_lt (c / 2 ^ 24 % 256 * 2 ^ 24) (c / 2 ^ 16 % 256 * 2 ^ 16) 24
    (by omega) ⟨c / 2 ^ 24 % 256, by ring⟩]
  rw [lor_eq_add_of_lt (c / 2 ^ 24 % 256 * 2 ^ 24 + c / 2 ^ 16 % 256 * 2 ^ 16)
    (c / 2 ^ 8 % 256 * 2 ^ 8) 16 (by omega)
    ⟨c / 2 ^ 24 % 256 * 2 ^ 8 + c / 2 ^ 16 % 256, by ring⟩]
  rw [lor_eq_add_of_lt
    (c / 2 ^ 24 % 256 * 2 ^ 24 + c / 2 ^ 16 % 256 * 2 ^ 16 + c / 2 ^ 8 % 256 * 2 ^ 8)
    (c % 256) 8 (by omega)
    ⟨c / 2 ^ 24 % 256 * 2 ^ 16 + c / 2 ^ 16 % 256 * 2 ^ 8 + c / 2 ^ 8 % 256, by ring⟩]
  omega

theorem colorBytes_reduced {m c : Nat} (hm : 0 < m) (hc : c < m) :
    colorBytes m c =
      [(c >>> 24) &&& 0xFF, (c >>> 16) &&& 0xFF, (c >>> 8) &&& 0xFF, c &&& 0xFF] := by
  simp [colorBytes, if_neg, Nat.pos_iff_ne_zero.mp hm, Nat.mod_eq_of_lt hc]

theorem decodeColorWords_encode {m : Nat} (hm : 0 < m) (hm32 : m ≤ 2 ^ 32)
    (p : List Nat) (hp : ∀ c ∈ p, c < m) :
    decodeColorWords m (encode_polynomial_as_colors p m) = p := by
  induction p with
  | nil => rfl
  | cons c p ih =>
      have hc : c < m := hp c (by simp)
      have hc32 : c < 2 ^ 32 := lt_of_lt_of_le hc hm32
      have hrest : ∀ x ∈ p, x < m := fun x hx => hp x (by simp [hx])
      simp only [encode_polynomial_as_colors, List.flatMap_cons] at *
      rw [colorBytes_reduced hm hc]
      simp only [List.cons_append, List.nil_append, decodeColorWords,
        List.cons.injEq]
      refine ⟨?_, ih hrest⟩
      rw [if_pos (Nat.pos_iff_ne_zero.mp hm), color_word_roundtrip hc32,
        Nat.mod_eq_of_lt hc]

theorem encode_polynomial_as_colors_length (p : List Nat) (m : Nat) :
    (encode_polynomial_as_colors p m).length = 4 * p.length := by
  induction p with
  | nil => rfl
  | cons c p ih =>
      simp only [encode_polynomial_as_colors, List.flatMap_cons,
        List.length_append, List.length_cons] at *
      rw [ih]
      simp [colorBytes]
      omega

theorem encode_polynomial_vector_as_colors_length {v : List (List Nat)}
    {n m : Nat} (hn : ∀ p ∈ v, p.length = n) :
    (encode_polynomial_vector_as_colors v m).length = v.length * n * 4 := by
  induction v with
  | nil => simp [encode_polynomial_vector_as_colors]
  | cons p v ih =>
      simp only [encode_polynomial_vector_as_colors, List.flatMap_cons,
        List.length_append, List.length_cons] at *
      rw [encode_polynomial_as_colors_length, ih (fun q hq => hn q (by simp [hq])),
        hn p (by simp)]
      ring

theorem decodeColorRows_encode {m n : Nat} (hm : 0 < m) (hm32 : m ≤ 2 ^ 32)
    (v : List (List Nat)) (hn : ∀ p ∈ v, p.length = n)
    (hv : ∀ p ∈ v, ∀ c ∈ p, c < m) :
    decodeColorRows (encode_polynomial_vector_as_colors v m) v.length n m = v := by
  induction v with
  | nil => rfl
  | cons p v ih =>
      simp only [encode_polynomial_vector_as_colors, List.flatMap_cons,
        List.length_cons]
      have hlen : (encode_polynomial_as_colors p m).length = n * 4 := by
        rw [encode_polynomial_as_colors_length, hn p (by simp)]; ring
      simp only [decodeColorRows, List.take_left' hlen, List.drop_left' hlen,
        List.cons.injEq]
      refine ⟨decodeColorWords_encode hm hm32 p (hv p (by simp)), ?_⟩
      exact ih (fun q hq => hn q (by simp [hq])) (fun q hq => hv q (by simp [hq]))

/-- C7. Color codec round trip: decoding the color encoding of a polynomial
vector whose coefficients all lie in `[0, modulus)` (with `modulus` a nonzero
`uint32_t` value, as is q = 8380417), using the same modulus and the matching
dimensions, returns exactly the original vector. -/
theorem color_codec_roundtrip (v : List (List Nat)) (k n m : Nat)
    (hk : v.length = k) (hn : ∀ p ∈ v, p.length = n)
    (hm : 0 < m) (hm32 : m ≤ 2 ^ 32)
    (hv : ∀ p ∈ v, ∀ c ∈ p, c < m) :
    decode_colors_to_polynomial_vector
      (encode_polynomial_vector_as_colors v m) k n m = .ok v := by
  have hlen : (encode_polynomial_vector_as_colors v m).length = k * n * 4 := by
    rw [encode_polynomial_vector_as_colors_length hn, hk]
  rw [decode_colors_to_polynomial_vector, if_neg (by omega)]
  subst hk
  rw [decodeColorRows_encode hm hm32 v hn hv]

/-- Witness for C7: the round trip evaluated on a concrete 2-polynomial
vector with modulus q. -/
theorem color_codec_roundtrip_witness :
    decode_colors_to_polynomial_vector
      (encode_polynomial_vector_as_colors [[0, 1, 8380416], [70000, 5, 259]] Q)
      2 3 Q = .ok [[0, 1, 8380416], [70000, 5, 259]] :=
  color_codec_roundtrip [[0, 1, 8380416], [70000, 5, 259]] 2 3 Q
    (by decide) (by decide) (by decide) (by decide) (by decide)

/-! ## COSE_Sign1 CBOR envelope (claim C8,
esp32s3/sign/src/include/clwe/performance_metrics.hpp, cose.cpp section) -/

/-- `COSE_Sign1` (cose.hpp:16-26): four byte-string fields. -/
structure COSE_Sign1 where
  protected_header : List Nat
  unprotected_header : List Nat
  payload : List Nat
  signature : List Nat
deriving DecidableEq

/-- `cbor::encode_bstr` (cose.cpp): major type 2 header with the length in
the shortest of the 0/1/2/4-byte forms, then the raw bytes. -/
def encode_bstr (data : List Nat) : List Nat :=
  (if data.length < 24 then
    [(2 <<< 5) ||| data.length]
   else if data.length ≤ 0xFF then
    [(2 <<< 5) ||| 24, data.length]
   else if data.length ≤ 0xFFFF then
    [(2 <<< 5) ||| 25, data.length >>> 8, data.length &&& 0xFF]
   else
    [(2 <<< 5) ||| 26, (data.length >>> 24) &&& 0xFF, (data.length >>> 16) &&& 0xFF,
     (data.length >>> 8) &&& 0xFF, data.length &&& 0xFF]) ++ data

/-- Tail of `cbor::decode_bstr` once the length is known: bounds check, then
slice `len` bytes and advance the offset. -/
def decodeBstrBody (data : List Nat) (len offset : Nat) :
    Except String (List Nat × Nat) :=
  if offset + len > data.length then .error "CBOR decode: bstr data incomplete"
  else .ok ((data.drop offset).take len, offset + len)

/-- `cbor::decode_bstr` (cose.cpp): reads the initial byte at `offset`,
checks major type 2, and accepts only the minor < 24 and minor = 24 length
forms (`large bstr not supported` otherwise). -/
def decode_bstr (data : List Nat) (offset : Nat) :
    Except String (List Nat × Nat) :=
  if offset ≥ data.length then .error "CBOR decode: out of bounds"
  else
    let initial := data.getD offset 0
    if initial >>> 5 ≠ 2 then .error "CBOR decode: not byte string"
    else if initial &&& 0x1F < 24 then
      decodeBstrBody data (initial &&& 0x1F) (offset + 1)
    else if initial &&& 0x1F = 24 then
      if offset + 1 ≥ data.length then .error "CBOR decode: incomplete bstr len"
      else decodeBstrBody data (data.getD (offset + 1) 0) (offset + 2)
    else .error "CBOR decode: large bstr not supported"

/-- `cbor::encode_array` (cose.cpp): major type 4 header (one- or two-byte
form), then the concatenated pre-encoded items. -/
def encode_array (items : List (List Nat)) : List Nat :=
  (if items.length < 24 then [(4 <<< 5) ||| items.length]
   else [(4 <<< 5) ||| 24, items.length]) ++ items.flatten

/-- The item loop of `cbor::decode_array` (cose.cpp): decode `count` byte
strings in sequence ("Assume all bstr for COSE_Sign1"). -/
def decodeBstrItems (data : List Nat) (offset : Nat) :
    Nat → Except String (List (List Nat) × Nat)
  | 0 => .ok ([], offset)
  | count + 1 => do
      let (item, off1) ← decode_bstr data offset
      let (rest, off2) ← decodeBstrItems data off1 count
      .ok (item :: rest, off2)

/-- `cbor::decode_array` (cose.cpp): reads the initial byte, checks major
type 4, accepts the minor < 24 and minor = 24 length forms, then decodes that
many byte strings. -/
def decode_array (data : List Nat) (offset : Nat) :
    Except String (List (List Nat) × Nat) :=
  if offset ≥ data.length then .error "CBOR decode: out of bounds"
  else
    let initial := data.getD offset 0
    if initial >>> 5 ≠ 4 then .error "CBOR decode: not array"
    else if initial &&& 0x1F < 24 then
      decodeBstrItems data (offset + 1) (initial &&& 0x1F)
    else if initial &&& 0x1F = 24 then
      if offset + 1 ≥ data.length then .error "CBOR decode: incomplete array len"
      else decodeBstrItems data (offset + 2) (data.getD (offset + 1) 0)
    else .error "CBOR decode: large array not supported"

/-- `encode_cose_sign1` (cose.cpp:381-388): CBOR array of the four
byte-string fields. -/
def encode_cose_sign1 (cose_msg : COSE_Sign1) : List Nat :=
  encode_array [encode_bstr cose_msg.protected_header,
    encode_bstr cose_msg.unprotected_header,
    encode_bstr cose_msg.payload,
    encode_bstr cose_msg.signature]

/-- `decode_cose_sign1` (cose.cpp:391-401): decode the array from offset 0,
require exactly 4 elements, and rebuild the structure. -/
def decode_cose_sign1 (cbor_data : List Nat) : Except String COSE_Sign1 := do
  let (items, _) ← decode_array cbor_data 0
  match items with
  | [p, u, pl, sg] => .ok ⟨p, u, pl, sg⟩
  | _ => .error "COSE_Sign1 must have 4 elements"

/-! ### Round-trip proof for the COSE envelope -/

theorem getD_append_right_add (pre l : List Nat) (i : Nat) :
    (pre ++ l).getD (pre.length + i) 0 = l.getD i 0 := by
  rw [List.getD_eq_getElem?_getD, List.getD_eq_getElem?_getD,
    List.getElem?_append_right (Nat.le_add_right _ _), Nat.add_sub_cancel_left]

theorem header_byte_fields (mt len : Nat) (hlen : len < 32) :
    ((mt <<< 5) ||| len) >>> 5 = mt ∧ ((mt <<< 5) ||| len) &&& 0x1F = len := by
  have he : (mt <<< 5) ||| len = mt * 32 + len := by
    rw [Nat.shiftLeft_eq]
    exact lor_eq_add_of_lt _ _ 5 hlen ⟨mt, by ring⟩
  constructor
  · rw [he, Nat.shiftRight_eq_div_pow]
    omega
  · have h31 : (0x1F : Nat) = 2 ^ 5 - 1 := by norm_num
    rw [he, h31, Nat.and_pow_two_sub_one_eq_mod]
    omega

/-- Decoding a byte string of length at most 255 from the position where its
encoding starts recovers it and leaves the offset just past it. -/
theorem decode_bstr_encode (b : List Nat) (hb : b.length ≤ 255)
    (pre rest : List Nat) :
    decode_bstr (pre ++ (encode_bstr b ++ rest)) pre.length =
      .ok (b, pre.length + (encode_bstr b).length) := by
  by_cases hsmall : b.length < 24
  · have henc : encode_bstr b = ((2 <<< 5) ||| b.length) :: b := by
      rw [encode_bstr, if_pos hsmall]
      rfl
    have hf := header_byte_fields 2 b.length (by omega)
    have hget : (pre ++ (encode_bstr b ++ rest)).getD pre.length 0 =
        (2 <<< 5) ||| b.length := by
      have h0 := getD_append_right_add pre (encode_bstr b ++ rest) 0
      rw [Nat.add_zero] at h0
      rw [h0, henc]
      rfl
    have hlen : (pre ++ (encode_bstr b ++ rest)).length =
        pre.length + 1 + b.length + rest.length := by
      rw [henc]
      simp only [List.length_append, List.length_cons]
      omega
    have hdrop : (pre ++ (encode_bstr b ++ rest)).drop (pre.length + 1) =
        b ++ rest := by
      have hsplit : pre ++ (encode_bstr b ++ rest) =
          (pre ++ [(2 <<< 5) ||| b.length]) ++ (b ++ rest) := by
        rw [henc]
        simp
      rw [hsplit, List.drop_left' (by simp)]
    have helen : (encode_bstr b).length = 1 + b.length := by
      rw [henc]
      simp only [List.length_cons]
      omega
    rw [decode_bstr, if_neg (by omega), hget, if_neg (not_not_intro hf.1),
      if_pos (by rw [hf.2]; omega), hf.2, decodeBstrBody, if_neg (by omega),
      hdrop, List.take_left, helen, Nat.add_assoc]
  · have henc : encode_bstr b = ((2 <<< 5) ||| 24) :: b.length :: b := by
      rw [encode_bstr, if_neg hsmall, if_pos (by omega)]
      rfl
    have hf := header_byte_fields 2 24 (by norm_num)
    have hget : (pre ++ (encode_bstr b ++ rest)).getD pre.length 0 =
        (2 <<< 5) ||| 24 := by
      have h0 := getD_append_right_add pre (encode_bstr b ++ rest) 0
      rw [Nat.add_zero] at h0
      rw [h0, henc]
      rfl
    have hget1 : (pre ++ (encode_bstr b ++ rest)).getD (pre.length + 1) 0 =
        b.length := by
      rw [getD_append_right_add pre (encode_bstr b ++ rest) 1, henc]
      rfl
    have hlen : (pre ++ (encode_bstr b ++ rest)).length =
        pre.length + 2 + b.length + rest.length := by
      rw [henc]
      simp only [List.length_append, List.length_cons]
      omega
    have hdrop : (pre ++ (encode_bstr b ++ rest)).drop (pre.length + 2) =
        b ++ rest := by
      have hsplit : pre ++ (encode_bstr b ++ rest) =
          (pre ++ [(2 <<< 5) ||| 24, b.length]) ++ (b ++ rest) := by
        rw [henc]
        simp
      rw [hsplit, List.drop_left' (by simp)]
    have helen : (encode_bstr b).length = 2 + b.length := by
      rw [henc]
      simp only [List.length_cons]
      omega
    rw [decode_bstr, if_neg (by omega), hget, if_neg (not_not_intro hf.1),
      if_neg (by rw [hf.2]; omega), if_pos (by rw [hf.2]), if_neg (by omega),
      hget1, decodeBstrBody, if_neg (by omega), hdrop, List.take_left, helen]
    rw [show pre.length + 2 + b.length = pre.length + (2 + b.length) by omega]

/-- Decoding a run of encoded byte strings (each at most 255 bytes) item by
item recovers the list of byte strings. -/
theorem decodeBstrItems_encode (bs : List (List Nat))
    (hb : ∀ b ∈ bs, b.length ≤ 255) (rest : List Nat) (pre : List Nat) :
    decodeBstrItems (pre ++ ((bs.map encode_bstr).flatten ++ rest)) pre.length
      bs.length =
      .ok (bs, pre.length + ((bs.map encode_bstr).flatten).length) := by
  induction bs generalizing pre with
  | nil => simp [decodeBstrItems]
  | cons b bs ih =>
      have hb0 : b.length ≤ 255 := hb b (by simp)
      have hassoc : pre ++ (((b :: bs).map encode_bstr).flatten ++ rest) =
          pre ++ (encode_bstr b ++ ((bs.map encode_bstr).flatten ++ rest)) := by
        simp [List.append_assoc]
      rw [List.length_cons, decodeBstrItems, hassoc,
        decode_bstr_encode b hb0 pre ((bs.map encode_bstr).flatten ++ rest)]
      have hpre' : pre ++ (encode_bstr b ++ ((bs.map encode_bstr).flatten ++ rest)) =
          (pre ++ encode_bstr b) ++ ((bs.map encode_bstr).flatten ++ rest) := by
        simp [List.append_assoc]
      have hoff : pre.length + (encode_bstr b).length =
          (pre ++ encode_bstr b).length := by
        simp
      simp only [Bind.bind, Except.bind]
      rw [hpre', hoff, ih (fun x hx => hb x (by simp [hx])) (pre ++ encode_bstr b)]
      have hofffin : (pre ++ encode_bstr b).length +
          ((bs.map encode_bstr).flatten).length =
          pre.length + (((b :: bs).map encode_bstr).flatten).length := by
        simp only [List.length_append, List.map_cons, List.flatten_cons]
        omega
      rw [hofffin]

/-- C8 (amended). COSE_Sign1 round trip holds for envelopes whose four fields
are each at most 255 bytes long: decoding the CBOR encoding returns an
identical envelope. (The decoder rejects the 2- and 4-byte length forms that
the encoder emits for longer fields, so the unrestricted claim fails; see the
counterexample.) -/
theorem cose_sign1_roundtrip (m : COSE_Sign1)
    (h1 : m.protected_header.length ≤ 255)
    (h2 : m.unprotected_header.length ≤ 255)
    (h3 : m.payload.length ≤ 255)
    (h4 : m.signature.length ≤ 255) :
    decode_cose_sign1 (encode_cose_sign1 m) = .ok m := by
  have hfields : ∀ b ∈ [m.protected_header, m.unprotected_header, m.payload,
      m.signature], b.length ≤ 255 := by
    intro b hbmem
    simp only [List.mem_cons, List.not_mem_nil, or_false] at hbmem
    rcases hbmem with h | h | h | h <;> subst h <;> assumption
  have henc : encode_cose_sign1 m =
      [(4 <<< 5) ||| 4] ++
        (([m.protected_header, m.unprotected_header, m.payload,
            m.signature].map encode_bstr).flatten ++ []) := by
    rw [encode_cose_sign1, encode_array, if_pos (by simp)]
    simp
  have hitems := decodeBstrItems_encode
    [m.protected_header, m.unprotected_header, m.payload, m.signature]
    hfields [] [(4 <<< 5) ||| 4]
  rw [← henc] at hitems
  have hf := header_byte_fields 4 4 (by norm_num)
  have hget0 : (encode_cose_sign1 m).getD 0 0 = (4 <<< 5) ||| 4 := by
    rw [henc]
    rfl
  have hlen0 : 0 < (encode_cose_sign1 m).length := by
    rw [henc]
    simp
  simp only [List.length_cons, List.length_nil, Nat.zero_add] at hitems
  rw [decode_cose_sign1, decode_array, if_neg (by omega), hget0,
    if_neg (not_not_intro hf.1), if_pos (by rw [hf.2]; norm_num), hf.2]
  simp only [Nat.zero_add]
  rw [hitems]
  rfl

set_option maxRecDepth 4000 in
/-- C8 counterexample: an envelope whose signature field is 256 bytes long is
CBOR-encoded with the two-byte length form, which the decoder rejects, so the
round trip fails (the claim quantifies over arbitrary byte strings). -/
theorem cose_sign1_roundtrip_fails_at_256 :
    decode_cose_sign1
        (encode_cose_sign1 ⟨[], [], [], List.replicate 256 0⟩) =
      .error "CBOR decode: large bstr not supported" := by
  rfl

/-- Witness for C8 (amended): a concrete envelope with short fields decodes
back to itself. -/
theorem cose_sign1_roundtrip_witness :
    decode_cose_sign1 (encode_cose_sign1 ⟨[1, 2], [], [3, 4, 5], [9]⟩) =
      .ok ⟨[1, 2], [], [3, 4, 5], [9]⟩ :=
  cose_sign1_roundtrip ⟨[1, 2], [], [3, 4, 5], [9]⟩
    (by decide) (by decide) (by decide) (by decide)

/-! ## Uniform rejection sampler (claim C4, src/unnamed/part_012
`SHAKE128Sampler::sample_uniform`, lines 326-345; `SHAKE256Sampler` has the
byte-identical duplicate at lines 425-444).

The sampler is modelled over an abstract squeeze stream `s : Nat → Nat`
(byte at each stream position) with an explicit running position, and fuel
for the unbounded rejection loop. -/

/-- The `bits_needed` loop of `sample_uniform`: the number of binary digits
of `modulus - 1` (`while (temp > 0) { bits_needed++; temp >>= 1; }`). The
fuel 32 covers every `uint32_t` input. -/
def bitsNeededAux : Nat → Nat → Nat
  | _, 0 => 0
  | 0, _ + 1 => 0
  | fuel + 1, t + 1 => 1 + bitsNeededAux fuel ((t + 1) / 2)

/-- `bits_needed` as computed by `sample_uniform` for a nonzero modulus. -/
def bits_needed (modulus : Nat) : Nat := bitsNeededAux 32 (modulus - 1)

/-- One attempt of `sample_uniform`: squeeze 4 bytes, assemble the 32-bit
little-endian word, and mask to the low `bits_needed` bits
(`result &= (1U << bits_needed) - 1`). -/
def sampleUniformAttempt (s : Nat → Nat) (modulus pos : Nat) : Nat :=
  ((s pos ||| (s (pos + 1) <<< 8) ||| (s (pos + 2) <<< 16) ||| (s (pos + 3) <<< 24))
      % 2 ^ 32) &&&
    (1 <<< bits_needed modulus - 1)

/-- `sample_uniform` (part_012:326-345): rejection-sample a value `< modulus`,
consuming 4 stream bytes per attempt. -/
def sample_uniform (s : Nat → Nat) (modulus : Nat) :
    Nat → Nat → Option (Nat × Nat)
  | 0, _ => none
  | fuel + 1, pos =>
      let result := sampleUniformAttempt s modulus pos
      if result < modulus then some (result, pos + 4)
      else sample_uniform s modulus fuel (pos + 4)

/-- `sample_polynomial_uniform` (part_012:446-450): one `sample_uniform` call
per coefficient. -/
def sample_polynomial_uniform (s : Nat → Nat) (modulus : Nat) :
    Nat → Nat → Nat → Option (List Nat × Nat)
  | 0, _, pos => some ([], pos)
  | degree + 1, fuel, pos =>
      match sample_uniform s modulus fuel pos with
      | none => none
      | some (v, pos') =>
          match sample_polynomial_uniform s modulus degree fuel pos' with
          | none => none
          | some (vs, pos'') => some (v :: vs, pos'')

/-- The claim's reference RejNTT sampler, following the spec's words: read
the XOF stream 3 bytes at a time, form a 23-bit little-endian integer with
the top byte masked to 0x7F, accept if `< q`, otherwise skip. -/
def rejNTTSpecValue (s : Nat → Nat) (pos : Nat) : Nat :=
  s pos + 256 * s (pos + 1) + 65536 * (s (pos + 2) &&& 0x7F)

/-- The reference rejection loop from the spec's words (3 bytes per
attempt). -/
def rejNTTSpec (s : Nat → Nat) : Nat → Nat → Option (Nat × Nat)
  | 0, _ => none
  | fuel + 1, pos =>
      if rejNTTSpecValue s pos < Q then some (rejNTTSpecValue s pos, pos + 3)
      else rejNTTSpec s fuel (pos + 3)

/-- The reference coefficient sequence (one reference rejection sample per
coefficient), for comparison with `sample_polynomial_uniform`. -/
def rejNTTSpecSeq (s : Nat → Nat) :
    Nat → Nat → Nat → Option (List Nat × Nat)
  | 0, _, pos => some ([], pos)
  | degree + 1, fuel, pos =>
      match rejNTTSpec s fuel pos with
      | none => none
      | some (v, pos') =>
          match rejNTTSpecSeq s degree fuel pos' with
          | none => none
          | some (vs, pos'') => some (v :: vs, pos'')

theorem lor_eq_add_of_lt_left (a b k : Nat) (ha : a < 2 ^ k) (hd : 2 ^ k ∣ b) :
    a ||| b = a + b := by
  rw [Nat.lor_comm, lor_eq_add_of_lt b a k ha hd, Nat.add_comm]

theorem bits_needed_q : bits_needed Q = 23 := by decide

/-- One attempt of the source sampler at modulus q computes exactly the
spec's 23-bit value of the first 3 bytes (the 4th squeezed byte is discarded
by the 23-bit mask). -/
theorem sampleUniformAttempt_eq_spec (s : Nat → Nat) (hs : ∀ i, s i < 256)
    (pos : Nat) : sampleUniformAttempt s Q pos = rejNTTSpecValue s pos := by
  have h0 := hs pos
  have h1 := hs (pos + 1)
  have h2 := hs (pos + 2)
  have h3 := hs (pos + 3)
  rw [sampleUniformAttempt, bits_needed_q]
  rw [Nat.shiftLeft_eq, Nat.shiftLeft_eq, Nat.shiftLeft_eq, Nat.shiftLeft_eq]
  rw [lor_eq_add_of_lt_left (s pos) (s (pos + 1) * 2 ^ 8) 8 (by omega)
    ⟨s (pos + 1), by ring⟩]
  rw [lor_eq_add_of_lt_left (s pos + s (pos + 1) * 2 ^ 8) (s (pos + 2) * 2 ^ 16) 16
    (by omega) ⟨s (pos + 2), by ring⟩]
  rw [lor_eq_add_of_lt_left
    (s pos + s (pos + 1) * 2 ^ 8 + s (pos + 2) * 2 ^ 16) (s (pos + 3) * 2 ^ 24) 24
    (by omega) ⟨s (pos + 3), by ring⟩]
  rw [show (1 * 2 ^ 23 - 1 : Nat) = 2 ^ 23 - 1 by omega,
    Nat.and_pow_two_sub_one_eq_mod]
  rw [rejNTTSpecValue, show (0x7F : Nat) = 2 ^ 7 - 1 by norm_num,
    Nat.and_pow_two_sub_one_eq_mod]
  omega

/-- C4 (amended). The source sampler consumes exactly 4 stream bytes per
attempt (not 3): each attempt evaluates the spec's 23-bit little-endian value
of the first 3 bytes (top byte masked to 0x7F), accepts it as the coefficient
iff it is `< q`, and otherwise skips — but the stream position advances by 4
either way, so the coefficient sequence diverges from the spec's 3-byte
reference sampler. -/
theorem sample_uniform_amended (s : Nat → Nat) (hs : ∀ i, s i < 256)
    (fuel pos : Nat) :
    sample_uniform s Q (fuel + 1) pos =
      if rejNTTSpecValue s pos < Q then some (rejNTTSpecValue s pos, pos + 4)
      else sample_uniform s Q fuel (pos + 4) := by
  rw [sample_uniform]
  simp only [sampleUniformAttempt_eq_spec s hs pos]

/-- Witness for C4 (amended): the loop equation evaluated on the all-zero
stream. -/
theorem sample_uniform_amended_witness :
    sample_uniform (fun _ => 0) Q 2 0 =
      if rejNTTSpecValue (fun _ => 0) 0 < Q
      then some (rejNTTSpecValue (fun _ => 0) 0, 0 + 4)
      else sample_uniform (fun _ => 0) Q 1 (0 + 4) :=
  sample_uniform_amended (fun _ => 0) (fun i => by show (0 : Nat) < 256; decide) 1 0

/-- C4 counterexample: on the stream whose byte 3 is 1 (all other bytes 0),
the source sampler and the spec's 3-byte reference sampler produce different
2-coefficient sequences ([0, 0] vs [0, 1]), refuting "consumes exactly
3 bytes per attempt" and the claimed sequence equality. -/
theorem sample_uniform_diverges_from_spec :
    (sample_polynomial_uniform (fun i => if i = 3 then 1 else 0) Q 2 8 0).map
        Prod.fst ≠
      (rejNTTSpecSeq (fun i => if i = 3 then 1 else 0) 2 8 0).map Prod.fst := by
  decide

/-! ## Centered-binomial sampler (claim C5, src/unnamed/part_012
`SHAKE256Sampler::sample_binomial_coefficient` /
`sample_polynomial_binomial`, lines 401-423). -/

/-- One half-loop of `sample_binomial_coefficient`: squeeze `n` bytes and sum
their least-significant bits (`sum += (byte & 1)`). -/
def lsbSum (s : Nat → Nat) (pos : Nat) : Nat → Nat
  | 0 => 0
  | n + 1 => (s pos &&& 1) + lsbSum s (pos + 1) n

/-- `sample_binomial_coefficient` (part_012:401-415): η bytes added and η
bytes subtracted, one bit per byte, so 2η stream bytes per coefficient.
Returns the signed value and the advanced stream position. -/
def sample_binomial_coefficient (s : Nat → Nat) (eta pos : Nat) : Int × Nat :=
  ((lsbSum s pos eta : Int) - (lsbSum s (pos + eta) eta : Int), pos + 2 * eta)

/-- `sample_polynomial_binomial` (part_012:417-423): per coefficient, store
`(coeff % modulus + modulus) % modulus`.  `coeff` is `int32_t` and `modulus`
is `uint32_t`, so the usual arithmetic conversions turn `coeff` into
`uint32_t` (its two's-complement residue `coeff mod 2^32`) BEFORE the first
`%`, and the whole expression is computed in `uint32_t` arithmetic. -/
def sample_polynomial_binomial (s : Nat → Nat) (eta modulus : Nat) :
    Nat → Nat → List Nat
  | 0, _ => []
  | degree + 1, pos =>
      let cp := sample_binomial_coefficient s eta pos
      ((cp.1.emod (2 ^ 32)).toNat % modulus + modulus) % 2 ^ 32 % modulus ::
        sample_polynomial_binomial s eta modulus degree cp.2

/-- The claim's bit-packed CBD_2 reference, following the spec's words: one
byte per PAIR of coefficients; the low nibble gives
(bit0 + bit1) − (bit2 + bit3), the high nibble the next coefficient. -/
def cbd2SpecByteLo (b : Nat) : Int :=
  ((b &&& 1) + ((b >>> 1) &&& 1) : Nat) - (((b >>> 2) &&& 1) + ((b >>> 3) &&& 1) : Nat)

/-- High-nibble coefficient of the bit-packed CBD_2 reference. -/
def cbd2SpecByteHi (b : Nat) : Int :=
  (((b >>> 4) &&& 1) + ((b >>> 5) &&& 1) : Nat) -
    (((b >>> 6) &&& 1) + ((b >>> 7) &&& 1) : Nat)

/-- Bit-packed CBD_2 reference sequence, stored reduced mod q like the
source's polynomial sampler (`pairs` bytes give `2 * pairs` coefficients). -/
def cbd2SpecCoeffs (s : Nat → Nat) (modulus : Nat) :
    Nat → Nat → List Nat
  | 0, _ => []
  | pairs + 1, pos =>
      ((cbd2SpecByteLo (s pos)).emod modulus).toNat ::
        ((cbd2SpecByteHi (s pos)).emod modulus).toNat ::
          cbd2SpecCoeffs s modulus pairs (pos + 1)

theorem lsbSum_le (s : Nat → Nat) (pos n : Nat) : lsbSum s pos n ≤ n := by
  induction n generalizing pos with
  | zero => simp [lsbSum]
  | succ n ih =>
      have hbit : s pos &&& 1 ≤ 1 := by
        rw [Nat.and_one_is_mod]
        omega
      have := ih (pos + 1)
      simp only [lsbSum]
      omega

/-- C5 (amended). The source CBD sampler consumes exactly 2η stream bytes per
coefficient (one LSB per byte: η bytes added, η subtracted) — not the spec's
bit-packed 1 byte per coefficient pair (η = 2) or per coefficient (η = 4).
Each produced signed coefficient lies in {−η, …, η}; the stored value is the
C++ unsigned `(coeff % modulus + modulus) % modulus` (the `int32_t`
coefficient first converted to `uint32_t`), hence always < modulus — but a
negative coefficient is stored as its two's-complement residue, not as its
mathematical residue (see `cbd_diverges_from_spec` for −1 ↦ 4193791). -/
theorem sample_binomial_amended (s : Nat → Nat) (eta modulus pos : Nat)
    (hm : 0 < modulus) :
    (sample_binomial_coefficient s eta pos).2 = pos + 2 * eta ∧
    -(eta : Int) ≤ (sample_binomial_coefficient s eta pos).1 ∧
    (sample_binomial_coefficient s eta pos).1 ≤ (eta : Int) ∧
    ∀ degree pos', ∀ x ∈ sample_polynomial_binomial s eta modulus degree pos',
      x < modulus := by
  refine ⟨rfl, ?_, ?_, ?_⟩
  · have h1 := lsbSum_le s pos eta
    have h2 := lsbSum_le s (pos + eta) eta
    simp only [sample_binomial_coefficient]
    omega
  · have h1 := lsbSum_le s pos eta
    have h2 := lsbSum_le s (pos + eta) eta
    simp only [sample_binomial_coefficient]
    omega
  · intro degree
    induction degree with
    | zero => intro pos' x hx; simp [sample_polynomial_binomial] at hx
    | succ d ih =>
        intro pos' x hx
        simp only [sample_polynomial_binomial, List.mem_cons] at hx
        rcases hx with hx | hx
        · subst hx
          exact Nat.mod_lt _ hm
        · exact ih _ x hx

/-- C5 counterexample: with η = 2 on the stream whose byte 2 is 1 (others 0),
the source sampler consumes 4 bytes for its first coefficient −1 and stores
it as the two's-complement residue (2^32 − 1) mod q = 4193791 (not q − 1),
while the spec's bit-packed CBD_2 yields 0 for both coefficients of its
first byte — the 2-coefficient sequences differ. -/
theorem cbd_diverges_from_spec :
    sample_polynomial_binomial (fun i => if i = 2 then 1 else 0) 2 Q 2 0 ≠
        cbd2SpecCoeffs (fun i => if i = 2 then 1 else 0) Q 1 0 ∧
      sample_polynomial_binomial (fun i => if i = 2 then 1 else 0) 2 Q 2 0 =
        [4193791, 0] := by
  exact ⟨by decide, by decide⟩

theorem sample_binomial_amended_witness :
    0 < Q ∧
      ((sample_binomial_coefficient (fun _ => 0) 2 0).2 = 0 + 2 * 2 ∧
      -(2 : Int) ≤ (sample_binomial_coefficient (fun _ => 0) 2 0).1 ∧
      (sample_binomial_coefficient (fun _ => 0) 2 0).1 ≤ (2 : Int) ∧
      ∀ degree pos', ∀ x ∈ sample_polynomial_binomial (fun _ => 0) 2 Q degree pos',
        x < Q) :=
  ⟨by decide, sample_binomial_amended (fun _ => 0) 2 Q 0 (by decide)⟩

/-! ## High-bits computation (claim C6, src/unnamed/part_012
`compute_high_bits`, lines 487-495). -/

/-- Per-coefficient body of `compute_high_bits`:
`w1 = (w + (1 << (d-1))) / (1 << d)` in `uint64_t`, narrowed to `uint32_t`
on store. (For `d = 0` the C source shifts by `d - 1 = 0xFFFFFFFF`, which is
undefined; the model uses the Nat value `d - 1 = 0` there.) -/
def highBitsCoeff (d r : Nat) : Nat := ((r + 1 <<< (d - 1)) / 1 <<< d) % 2 ^ 32

/-- `compute_high_bits` (part_012:487-495): the per-coefficient rounding
mapped over the vector; the modulus parameter `q` is not used by the source.
-/
def compute_high_bits (w : List Nat) (d q : Nat) : List Nat :=
  w.map (highBitsCoeff d)

/-- The claim's `highBits`: the r1 projection of `decompose(r, α)` with
r = r1·α + r0, r0 ∈ (−α/2, α/2], and the corner case r1 = 0 when the
unsigned high part would wrap (r − r0 = q − 1). Stated from the claim's and
spec §4.4's words, for comparison with the source. -/
def highBitsSpec (r alpha q : Nat) : Nat :=
  let r0 : Int :=
    if (r : Int) % alpha > (alpha : Int) / 2 then (r : Int) % alpha - alpha
    else (r : Int) % alpha
  if (r : Int) - r0 = (q : Int) - 1 then 0 else (((r : Int) - r0) / alpha).toNat

/-- C6 counterexample: with the ML-DSA-44 value α = 2γ₂ = 190464 and
r = 4190208 = 22·α, decompose gives r1 = 22, but `compute_high_bits` divides
by a power of two and returns a different value for every `uint32_t` shift
`d`; moreover even granting the code its own α = 2^13, at r = 4096 the code
returns 1 while the claimed decompose projection gives 0 (its r0 interval is
[−α/2, α/2), not (−α/2, α/2], and there is no corner case). -/
theorem compute_high_bits_not_decompose :
    (∀ d, d < 32 →
      compute_high_bits [4190208] d Q ≠ [highBitsSpec 4190208 (2 * 95232) Q]) ∧
    highBitsSpec 4190208 (2 * 95232) Q = 22 ∧
    compute_high_bits [4096] 13 Q = [1] ∧
    highBitsSpec 4096 8192 Q = 0 := by
  decide

/-- C6 (amended). For `d ≥ 1` and a `uint32_t` coefficient `r`,
`compute_high_bits` returns ⌊(r + 2^(d−1)) / 2^d⌋ per coefficient: the unique
r1 with r = r1·2^d + r0 and r0 ∈ [−2^(d−1), 2^(d−1)) — a plain power-of-two
rounding with a half-open interval on the other side and no mod-q corner
case, not the decompose projection at α = 2γ₂. -/
theorem compute_high_bits_amended (d q r : Nat) (hd : 1 ≤ d) (hr : r < 2 ^ 32) :
    compute_high_bits [r] d q = [(r + 2 ^ (d - 1)) / 2 ^ d] ∧
    ((r : Int) = (((r + 2 ^ (d - 1)) / 2 ^ d : Nat) : Int) * 2 ^ d +
        ((r : Int) - (((r + 2 ^ (d - 1)) / 2 ^ d : Nat) : Int) * 2 ^ d) ∧
      -((2 : Int) ^ (d - 1)) ≤
        (r : Int) - (((r + 2 ^ (d - 1)) / 2 ^ d : Nat) : Int) * 2 ^ d ∧
      (r : Int) - (((r + 2 ^ (d - 1)) / 2 ^ d : Nat) : Int) * 2 ^ d <
        (2 : Int) ^ (d - 1)) ∧
    ∀ r1' r0' : Int, (r : Int) = r1' * 2 ^ d + r0' →
      -((2 : Int) ^ (d - 1)) ≤ r0' → r0' < (2 : Int) ^ (d - 1) →
      r1' = (((r + 2 ^ (d - 1)) / 2 ^ d : Nat) : Int) := by
  have hsplit : (2 : Nat) ^ d = 2 * 2 ^ (d - 1) := by
    calc (2 : Nat) ^ d = 2 ^ (d - 1 + 1) := by rw [Nat.sub_add_cancel hd]
    _ = 2 * 2 ^ (d - 1) := by rw [Nat.pow_succ]; ring
  have hh : 0 < (2 : Nat) ^ (d - 1) := Nat.pos_pow_of_pos _ (by norm_num)
  have hmodN := Nat.div_add_mod (r + 2 ^ (d - 1)) (2 ^ d)
  rw [Nat.mul_comm] at hmodN
  have hmodlt : (r + 2 ^ (d - 1)) % 2 ^ d < 2 ^ d :=
    Nat.mod_lt _ (Nat.pos_pow_of_pos _ (by norm_num))
  have hmodZ : (((r + 2 ^ (d - 1)) / 2 ^ d : Nat) : Int) * (2 : Int) ^ d +
      (((r + 2 ^ (d - 1)) % 2 ^ d : Nat) : Int) = (r : Int) + (2 : Int) ^ (d - 1) := by
    exact_mod_cast hmodN
  have hmltZ : (((r + 2 ^ (d - 1)) % 2 ^ d : Nat) : Int) < (2 : Int) ^ d := by
    exact_mod_cast hmodlt
  have hmgeZ : (0 : Int) ≤ (((r + 2 ^ (d - 1)) % 2 ^ d : Nat) : Int) :=
    Int.ofNat_nonneg _
  have hsplitZ : (2 : Int) ^ d = 2 * 2 ^ (d - 1) := by exact_mod_cast hsplit
  refine ⟨?_, ⟨by ring, ?_, ?_⟩, ?_⟩
  · have hq : (r + 2 ^ (d - 1)) / 2 ^ d < 2 ^ 32 := by
      rw [Nat.div_lt_iff_lt_mul (Nat.pos_pow_of_pos _ (by norm_num))]
      calc r + 2 ^ (d - 1) < 2 ^ 32 + 2 ^ (d - 1) * 1 := by omega
      _ ≤ 2 ^ (d - 1) * 2 ^ 32 + 2 ^ (d - 1) * 2 ^ 32 := by
          have h1 : (2 : Nat) ^ 32 ≤ 2 ^ (d - 1) * 2 ^ 32 :=
            Nat.le_mul_of_pos_left _ hh
          have h2 : 2 ^ (d - 1) * 1 ≤ 2 ^ (d - 1) * 2 ^ 32 := by
            apply Nat.mul_le_mul_left
            norm_num
          omega
      _ = 2 ^ 32 * (2 * 2 ^ (d - 1)) := by ring
      _ = 2 ^ 32 * 2 ^ d := by rw [← hsplit]
    simp only [compute_high_bits, List.map_cons, List.map_nil, highBitsCoeff,
      Nat.shiftLeft_eq, Nat.one_mul, List.cons.injEq, and_true]
    exact Nat.mod_eq_of_lt hq
  · omega
  · omega
  · intro r1' r0' heq hge hlt
    have hDpos : (0 : Int) < 2 ^ d := by positivity
    have hbound1 : -((2 : Int) ^ d) < (r1' - (((r + 2 ^ (d - 1)) / 2 ^ d : Nat) : Int)) * 2 ^ d := by
      have hexp : (r1' - (((r + 2 ^ (d - 1)) / 2 ^ d : Nat) : Int)) * 2 ^ d =
          r1' * 2 ^ d - (((r + 2 ^ (d - 1)) / 2 ^ d : Nat) : Int) * 2 ^ d := by ring
      rw [hexp]
      omega
    have hbound2 : (r1' - (((r + 2 ^ (d - 1)) / 2 ^ d : Nat) : Int)) * 2 ^ d < 2 ^ d := by
      have hexp : (r1' - (((r + 2 ^ (d - 1)) / 2 ^ d : Nat) : Int)) * 2 ^ d =
          r1' * 2 ^ d - (((r + 2 ^ (d - 1)) / 2 ^ d : Nat) : Int) * 2 ^ d := by ring
      rw [hexp]
      omega
    have hzero : r1' - (((r + 2 ^ (d - 1)) / 2 ^ d : Nat) : Int) = 0 := by
      by_contra hne
      rcases lt_or_gt_of_ne hne with h | h
      · have h1 : r1' - (((r + 2 ^ (d - 1)) / 2 ^ d : Nat) : Int) ≤ -1 := by omega
        have h2 : (r1' - (((r + 2 ^ (d - 1)) / 2 ^ d : Nat) : Int)) * 2 ^ d ≤
            -1 * 2 ^ d := mul_le_mul_of_nonneg_right h1 hDpos.le
        omega
      · have h1 : 1 ≤ r1' - (((r + 2 ^ (d - 1)) / 2 ^ d : Nat) : Int) := by omega
        have h2 : 1 * (2 : Int) ^ d ≤
            (r1' - (((r + 2 ^ (d - 1)) / 2 ^ d : Nat) : Int)) * 2 ^ d :=
          mul_le_mul_of_nonneg_right h1 hDpos.le
        omega
    omega


/-- Witness for C6 (amended): the rounding identity at r = 100, d = 13. -/
theorem compute_high_bits_amended_witness :
    compute_high_bits [100] 13 Q = [(100 + 2 ^ 12) / 2 ^ 13] ∧
    ((100 : Int) = (((100 + 2 ^ 12) / 2 ^ 13 : Nat) : Int) * 2 ^ 13 +
        ((100 : Int) - (((100 + 2 ^ 12) / 2 ^ 13 : Nat) : Int) * 2 ^ 13) ∧
      -((2 : Int) ^ 12) ≤
        (100 : Int) - (((100 + 2 ^ 12) / 2 ^ 13 : Nat) : Int) * 2 ^ 13 ∧
      (100 : Int) - (((100 + 2 ^ 12) / 2 ^ 13 : Nat) : Int) * 2 ^ 13 <
        (2 : Int) ^ 12) ∧
    ∀ r1' r0' : Int, (100 : Int) = r1' * 2 ^ 13 + r0' →
      -((2 : Int) ^ 12) ≤ r0' → r0' < (2 : Int) ^ 12 →
      r1' = (((100 + 2 ^ 12) / 2 ^ 13 : Nat) : Int) :=
  compute_high_bits_amended 13 Q 100 (by norm_num) (by norm_num)

/-! ## Challenge sampling (claim C9, src/unnamed/part_012 `sample_challenge`,
lines 497-523).

The SHAKE-256 state initialized from the 32-byte seed is abstracted as the
squeeze stream `s : Nat → Nat`; every theorem below quantifies over all
streams, hence over all seeds. -/

theorem getD_set_self (l : List Nat) (i v : Nat) (hi : i < l.length) :
    (l.set i v).getD i 0 = v := by
  rw [List.getD_eq_getElem?_getD, List.getElem?_set_self (by simpa using hi)]
  rfl

theorem getD_set_ne (l : List Nat) (i j v : Nat) (h : i ≠ j) :
    (l.set i v).getD j 0 = l.getD j 0 := by
  rw [List.getD_eq_getElem?_getD, List.getD_eq_getElem?_getD,
    List.getElem?_set_ne h]

/-- Setting one entry exchanges its contribution to a `countP`. -/
theorem countP_set_balance (f : Nat → Bool) (l : List Nat) (p v : Nat)
    (hp : p < l.length) :
    (l.set p v).countP f + (if f (l.getD p 0) then 1 else 0) =
      l.countP f + (if f v then 1 else 0) := by
  have hgd : l.getD p 0 = l[p] := by
    rw [List.getD_eq_getElem?_getD, List.getElem?_eq_getElem hp]
    rfl
  rw [List.set_eq_take_cons_drop v hp]
  conv_rhs => rw [← List.take_append_drop p l, List.drop_eq_getElem_cons hp]
  simp only [List.countP_append, List.countP_cons, hgd]
  omega

/-- `std::swap(positions[i], positions[j])` leaves the list a permutation of
itself. -/
theorem set_swap_perm (l : List Nat) (i j : Nat) (hi : i < l.length)
    (hj : j < l.length) :
    List.Perm ((l.set i (l.getD j 0)).set j (l.getD i 0)) l := by
  rw [List.perm_iff_count]
  intro a
  have hj1 : j < (l.set i (l.getD j 0)).length := by simpa using hj
  have b1 := countP_set_balance (· == a) l i (l.getD j 0) hi
  have b2 := countP_set_balance (· == a) (l.set i (l.getD j 0)) j (l.getD i 0) hj1
  by_cases hij : i = j
  · subst hij
    rw [getD_set_self l i (l.getD i 0) hi] at b2
    simp only [List.count]
    omega
  · rw [getD_set_ne l i j (l.getD j 0) hij] at b2
    simp only [List.count]
    omega

/-- The selection loop of `sample_challenge` (part_012:509-512): for each of
`remaining` iterations at index `i`, draw `j = i + sample_uniform(n - i)` and
`std::swap(positions[i], positions[j])`, threading the stream position. -/
def fisherYatesSel (s : Nat → Nat) (fuel n : Nat) :
    Nat → Nat → List Nat → Nat → Option (List Nat × Nat)
  | 0, _, positions, pos => some (positions, pos)
  | remaining + 1, i, positions, pos =>
      match sample_uniform s (n - i) fuel pos with
      | none => none
      | some (v, pos') =>
          let j := i + v
          let pi := positions.getD i 0
          let pj := positions.getD j 0
          fisherYatesSel s fuel n remaining (i + 1) ((positions.set i pj).set j pi)
            pos'

/-- The sign-assignment loop of `sample_challenge` (part_012:518-522): for
each of `remaining` iterations at index `i`, squeeze one sign byte and set
`c[positions[i]]` to 1 or q − 1. -/
def assignSigns (s : Nat → Nat) (q : Nat) (positions : List Nat) :
    Nat → Nat → List Nat → Nat → List Nat × Nat
  | 0, _, c, pos => (c, pos)
  | remaining + 1, i, c, pos =>
      let sign_byte := s pos
      let v := if sign_byte &&& 1 ≠ 0 then 1 else q - 1
      assignSigns s q positions remaining (i + 1)
        (c.set (positions.getD i 0) v) (pos + 1)

/-- `sample_challenge` (part_012:497-523): Fisher-Yates selection of tau
positions over `[0, n)`, then +1/−1 (mod q) assignment at the selected
positions of an all-zero coefficient vector. -/
def sample_challenge (s : Nat → Nat) (fuel tau n q : Nat) : Option (List Nat) :=
  match fisherYatesSel s fuel n tau 0 (List.range n) 0 with
  | none => none
  | some (positions, pos) =>
      some (assignSigns s q positions tau 0 (List.replicate n 0) pos).1

/-- A successful rejection sample is below the modulus. -/
theorem sample_uniform_lt (s : Nat → Nat) (m : Nat) :
    ∀ fuel pos v pos', sample_uniform s m fuel pos = some (v, pos') → v < m := by
  intro fuel
  induction fuel with
  | zero => intro pos v pos' h; simp [sample_uniform] at h
  | succ f ih =>
      intro pos v pos' h
      rw [sample_uniform] at h
      split at h
      · simp only [Option.some.injEq, Prod.mk.injEq] at h
        omega
      · exact ih (pos + 4) v pos' h

/-- The position list after the selection loop is a permutation of the
starting list. -/
theorem fisherYatesSel_perm (s : Nat → Nat) (fuel n : Nat) :
    ∀ remaining i positions pos out,
      positions.length = n →
      i + remaining ≤ n →
      fisherYatesSel s fuel n remaining i positions pos = some out →
      List.Perm out.1 positions := by
  intro remaining
  induction remaining with
  | zero =>
      intro i positions pos out _ _ h
      simp only [fisherYatesSel, Option.some.injEq] at h
      subst h
      exact List.Perm.refl _
  | succ rem ih =>
      intro i positions pos out hlen hle h
      rw [fisherYatesSel] at h
      cases hsu : sample_uniform s (n - i) fuel pos with
      | none => rw [hsu] at h; cases h
      | some vp =>
          obtain ⟨v, pos'⟩ := vp
          rw [hsu] at h
          have hv : v < n - i := sample_uniform_lt s (n - i) fuel pos v pos' hsu
          have hi : i < n := by omega
          have hj : i + v < n := by omega
          have hswlen : ((positions.set i (positions.getD (i + v) 0)).set (i + v)
              (positions.getD i 0)).length = n := by simpa using hlen
          have hrec := ih (i + 1) _ pos' out hswlen (by omega) h
          exact hrec.trans
            (set_swap_perm positions i (i + v) (by omega) (by omega))

/-- The assignment loop writes 1 or q − 1 at `remaining` pairwise-distinct,
in-bounds, still-zero positions: it adds exactly `remaining` nonzero
entries, and every entry stays in {0, 1, q − 1}. -/
theorem assignSigns_spec (s : Nat → Nat) (q : Nat) (hq : 2 ≤ q)
    (positions : List Nat) :
    ∀ remaining i c pos,
      (∀ x ∈ c, x = 0 ∨ x = 1 ∨ x = q - 1) →
      (∀ a, i ≤ a → a < i + remaining → positions.getD a 0 < c.length) →
      (∀ a, i ≤ a → a < i + remaining → c.getD (positions.getD a 0) 0 = 0) →
      (∀ a b, i ≤ a → a < b → b < i + remaining →
        positions.getD a 0 ≠ positions.getD b 0) →
      (assignSigns s q positions remaining i c pos).1.length = c.length ∧
      (assignSigns s q positions remaining i c pos).1.countP
          (fun x => decide (x ≠ 0)) =
        c.countP (fun x => decide (x ≠ 0)) + remaining ∧
      ∀ x ∈ (assignSigns s q positions remaining i c pos).1,
        x = 0 ∨ x = 1 ∨ x = q - 1 := by
  intro remaining
  induction remaining with
  | zero =>
      intro i c pos hmem _ _ _
      exact ⟨rfl, by simp [assignSigns], hmem⟩
  | succ rem ih =>
      intro i c pos hmem hidx hzero hdist
      have hp : positions.getD i 0 < c.length := hidx i le_rfl (by omega)
      have hc0 : c.getD (positions.getD i 0) 0 = 0 := hzero i le_rfl (by omega)
      set v : Nat := if s pos &&& 1 ≠ 0 then 1 else q - 1 with hv
      have hvval : v = 1 ∨ v = q - 1 := by
        rw [hv]
        split
        · exact Or.inl rfl
        · exact Or.inr rfl
      have hvne : v ≠ 0 := by
        rcases hvval with h | h <;> omega
      set c' : List Nat := c.set (positions.getD i 0) v with hc'
      have hmem' : ∀ x ∈ c', x = 0 ∨ x = 1 ∨ x = q - 1 := by
        intro x hx
        rcases List.mem_or_eq_of_mem_set hx with hx | hx
        · exact hmem x hx
        · subst hx
          rcases hvval with h | h
          · exact Or.inr (Or.inl h)
          · exact Or.inr (Or.inr h)
      have hidx' : ∀ a, i + 1 ≤ a → a < i + 1 + rem →
          positions.getD a 0 < c'.length := by
        intro a h1 h2
        rw [hc', List.length_set]
        exact hidx a (by omega) (by omega)
      have hzero' : ∀ a, i + 1 ≤ a → a < i + 1 + rem →
          c'.getD (positions.getD a 0) 0 = 0 := by
        intro a h1 h2
        rw [hc', getD_set_ne _ _ _ _ (hdist i a le_rfl (by omega) (by omega))]
        exact hzero a (by omega) (by omega)
      have hdist' : ∀ a b, i + 1 ≤ a → a < b → b < i + 1 + rem →
          positions.getD a 0 ≠ positions.getD b 0 := by
        intro a b h1 h2 h3
        exact hdist a b (by omega) h2 (by omega)
      have hcount' : c'.countP (fun x => decide (x ≠ 0)) =
          c.countP (fun x => decide (x ≠ 0)) + 1 := by
        have hbal := countP_set_balance (fun x => decide (x ≠ 0)) c
          (positions.getD i 0) v hp
        have h1 : decide (c.getD (positions.getD i 0) 0 ≠ 0) = false := by
          rw [hc0]
          decide
        have h2 : decide (v ≠ 0) = true := decide_eq_true hvne
        rw [← hc'] at hbal
        simp only [h1, h2, Bool.false_eq_true, if_false, if_true] at hbal
        omega
      have hrec := ih (i + 1) c' (pos + 1) hmem' hidx' hzero' hdist'
      rw [assignSigns]
      refine ⟨?_, ?_, hrec.2.2⟩
      · rw [hrec.1, hc', List.length_set]
      · rw [hrec.2.1, hcount']
        omega

/-- C9. For every squeeze stream (hence every 32-byte seed) and parameter
set values τ ≤ n with q ≥ 2, a successful `sample_challenge` run returns a
length-n coefficient vector with exactly τ nonzero coefficients, each equal
to 1 or q − 1 (+1 or −1 mod q), and the remaining n − τ coefficients zero. -/
theorem sample_challenge_wellformed (s : Nat → Nat) (fuel tau n q : Nat)
    (hq : 2 ≤ q) (htn : tau ≤ n) (c : List Nat)
    (h : sample_challenge s fuel tau n q = some c) :
    c.length = n ∧ c.countP (fun x => decide (x ≠ 0)) = tau ∧
      ∀ x ∈ c, x = 0 ∨ x = 1 ∨ x = q - 1 := by
  rw [sample_challenge] at h
  cases hfy : fisherYatesSel s fuel n tau 0 (List.range n) 0 with
  | none => rw [hfy] at h; cases h
  | some ppos =>
      obtain ⟨positions, pos⟩ := ppos
      rw [hfy] at h
      simp only [Option.some.injEq] at h
      subst h
      have hperm : List.Perm positions (List.range n) :=
        fisherYatesSel_perm s fuel n tau 0 (List.range n) 0 (positions, pos)
          (List.length_range n) (by omega) hfy
      have hplen : positions.length = n := by
        rw [hperm.length_eq, List.length_range]
      have hpmem : ∀ x ∈ positions, x < n := fun x hx =>
        List.mem_range.mp (hperm.mem_iff.mp hx)
      have hnodup : positions.Nodup :=
        hperm.nodup_iff.mpr (List.nodup_range n)
      have hrepgetD : ∀ idx, (List.replicate n (0 : Nat)).getD idx 0 = 0 := by
        intro idx
        rw [List.getD_eq_getElem?_getD, List.getElem?_replicate]
        split <;> rfl
      have hidx : ∀ a, 0 ≤ a → a < 0 + tau →
          positions.getD a 0 < (List.replicate n (0 : Nat)).length := by
        intro a _ ha
        rw [List.length_replicate]
        have ha' : a < positions.length := by omega
        rw [List.getD_eq_getElem?_getD, List.getElem?_eq_getElem ha']
        exact hpmem _ (List.getElem_mem ha')
      have hzero : ∀ a, 0 ≤ a → a < 0 + tau →
          (List.replicate n (0 : Nat)).getD (positions.getD a 0) 0 = 0 :=
        fun a _ _ => hrepgetD _
      have hdist : ∀ a b, 0 ≤ a → a < b → b < 0 + tau →
          positions.getD a 0 ≠ positions.getD b 0 := by
        intro a b _ hab hb
        have ha' : a < positions.length := by omega
        have hb' : b < positions.length := by omega
        rw [List.getD_eq_getElem?_getD, List.getElem?_eq_getElem ha',
          List.getD_eq_getElem?_getD, List.getElem?_eq_getElem hb']
        simp only [Option.getD_some]
        intro hcontra
        exact absurd ((hnodup.getElem_inj_iff).mp hcontra) (by omega)
      have hc0mem : ∀ x ∈ List.replicate n (0 : Nat), x = 0 ∨ x = 1 ∨ x = q - 1 :=
        fun x hx => Or.inl (List.eq_of_mem_replicate hx)
      have hcount0 :
          (List.replicate n (0 : Nat)).countP (fun x => decide (x ≠ 0)) = 0 := by
        rw [List.countP_eq_zero]
        intro a ha
        simp [List.eq_of_mem_replicate ha]
      have hmain := assignSigns_spec s q hq positions tau 0
        (List.replicate n 0) pos hc0mem hidx hzero hdist
      refine ⟨?_, ?_, hmain.2.2⟩
      · rw [hmain.1, List.length_replicate]
      · rw [hmain.2.1, hcount0]
        omega

/-- Witness for C9: a successful run on the all-zero stream with the
ML-DSA-44 values τ = 39, n = 256, q. -/
theorem sample_challenge_wellformed_witness :
    (2 ≤ Q ∧ 39 ≤ 256) ∧
    ((sample_challenge (fun _ => 0) 1 39 256 Q).getD []).length = 256 ∧
    ((sample_challenge (fun _ => 0) 1 39 256 Q).getD []).countP
        (fun x => decide (x ≠ 0)) = 39 ∧
    ∀ x ∈ (sample_challenge (fun _ => 0) 1 39 256 Q).getD [],
      x = 0 ∨ x = 1 ∨ x = Q - 1 := by
  have hsome : (sample_challenge (fun _ => 0) 1 39 256 Q).isSome = true := by
    decide
  have heq : sample_challenge (fun _ => 0) 1 39 256 Q =
      some ((sample_challenge (fun _ => 0) 1 39 256 Q).getD []) := by
    cases hc : sample_challenge (fun _ => 0) 1 39 256 Q with
    | none => rw [hc] at hsome; cases hsome
    | some c => rfl
  exact ⟨⟨by decide, by decide⟩,
    sample_challenge_wellformed (fun _ => 0) 1 39 256 Q (by decide) (by decide)
      _ heq⟩

/-! ## Scalar NTT engine (claim C2,
esp32s3-sign/sign/src/core/ntt_engine.cpp `ScalarNTTEngine`).

The engine is hard-wired to q = 8380417 and n = 256 (ntt_engine.cpp:218-230).
-/

/-- `zetas_ml_dsa` (ntt_engine.cpp:24-41), transcribed verbatim. -/
def zetas_ml_dsa : List Int :=
  [0, 25847, -2608894, -518909, 237124, -777960, -876248, 466468,
   1826347, 2353451, -359251, -2091905, 3119733, -2884855, 3111497, 2680103,
   2725464, 1024112, -1079900, 3585928, -1497254, 4189091, -1882636, 2036599,
   1107237, 727831, -214476, 18292, -167782, -240320, -474467, -378833,
   -1575429, -1194982, -262805, -857374, -236959, -876248, -109702, -494783,
   -1846644, -642346, -1085204, -1060846, -466468, -200074, -120614, -181804,
   -167782, -1107237, -1882636, -25847, -2081905, -1826347, -2091905, -181804,
   -777960, -2091905, -237124, -876248, -3111497, -262805, -2091905, -2725464,
   -109702, -3119733, -236959, -3119733, -181804, -3119733, -3111497, -2725464,
   -2091905, -2884855, -1497254, -3119733, -3111497, -2884855, -2725464, -2091905,
   -2884855, -3119733, -1497254, -2091905, -3119733, -2725464, -2884855, -3119733,
   -2725464, -2091905, -2884855, -3119733, -3111497, -2725464, -2091905, -2884855,
   -3119733, -1497254, -2091905, -3119733, -3111497, -2725464, -2884855, -3119733,
   -2725464, -2091905, -2884855, -3119733, -3111497, -2725464, -2091905, -2884855,
   -3119733, -1497254, -2091905, -3119733, -3111497, -2725464, -2884855, -3119733,
   -2725464, -2091905, -2884855, -3119733, -3111497, -2725464, -2091905, -2884855]

/-- The `zetas_` table after `precompute_zetas` (ntt_engine.cpp:270-296):
size 256, all zero except indices 1..127 which hold `zetas_ml_dsa[i-1]`. -/
def zetasAt (k : Nat) : Int :=
  if 1 ≤ k ∧ k < 128 then zetas_ml_dsa.getD (k - 1) 0 else 0

/-- The `zetas_inv_` table: `zetas_inv_[i] = zetas_[128 - i]` for
i in 1..127, zero elsewhere (ntt_engine.cpp:288-292). -/
def zetasInvAt (k : Nat) : Int :=
  if 1 ≤ k ∧ k < 128 then zetasAt (128 - k) else 0

/-- `ScalarNTTEngine::montgomery_reduce` (ntt_engine.cpp:232-245) on the
`int64_t` input: `t = (val * 587289889) & 0xFFFFFFFF`,
`result = (val - t * q) >> 32` (arithmetic shift = floor division). -/
def montgomery_reduce (val : Int) : Int :=
  Int.fdiv (val - ((val * 587289889).emod (2 ^ 32)) * 8380417) (2 ^ 32)

/-- The extended-Euclid loop of `mod_inverse` (part_012:457-471), with fuel
(the loop terminates well within 128 iterations for `uint32_t` inputs). -/
def mod_inverse_loop : Nat → Nat → Nat → Int → Int → Int
  | 0, _, _, _, x1 => x1
  | fuel + 1, a, m, x0, x1 =>
      if a > 1 then
        mod_inverse_loop fuel m (a % m) (x1 - (a / m : Nat) * x0) x0
      else x1

/-- `mod_inverse` (part_012:457-471). -/
def mod_inverse (a m : Nat) : Nat :=
  if m = 1 then 0
  else
    let x1 := mod_inverse_loop 128 a m 0 1
    (if x1 < 0 then x1 + m else x1).toNat

/-- `n_inv_ = mod_inverse(n_, q_)` (ntt_engine.cpp:295). -/
def n_inv : Nat := mod_inverse 256 8380417

/-- One table entry of `precompute_bitrev` with log_n = 8
(ntt_engine.cpp:60-68). -/
def bitrev8 (i : Nat) : Nat :=
  (List.range 8).foldl (fun rev j => rev ||| (((i >>> j) &&& 1) <<< (7 - j))) 0

/-- `NTTEngine::bit_reverse` (ntt_engine.cpp:70-76): conditional swaps over
ascending i. -/
def bit_reverse (poly : List Nat) : List Nat :=
  (List.range 256).foldl
    (fun p i =>
      if i < bitrev8 i then
        (p.set i (p.getD (bitrev8 i) 0)).set (bitrev8 i) (p.getD i 0)
      else p)
    poly

/-- The shared butterfly of `ntt_forward` / `ntt_inverse`
(ntt_engine.cpp:312-319 and 336-344): `t_mod = (uint32_t)montgomery_reduce
(v * zeta)`, `poly[j] = (u + t_mod) % q`, `poly[j + len/2] = (u + q - t_mod)
% q`, all index arithmetic in `uint32_t`. -/
def nttButterfly (zeta : Int) (len2 : Nat) (poly : List Nat) (j : Nat) :
    List Nat :=
  let u := poly.getD j 0
  let v := poly.getD (j + len2) 0
  let t_mod := ((montgomery_reduce ((v : Int) * zeta)).emod (2 ^ 32)).toNat
  (poly.set j ((u + t_mod) % 2 ^ 32 % 8380417)).set (j + len2)
    ((u + 8380417 + 2 ^ 32 - t_mod) % 2 ^ 32 % 8380417)

/-- The inner j-loop over one block (`for j = start; j < start + len/2`). -/
def nttBlock (zeta : Int) (start len2 : Nat) (poly : List Nat) : List Nat :=
  (List.range len2).foldl (fun p jo => nttButterfly zeta len2 p (start + jo)) poly

/-- One forward level: the start-loop with the `k < zetas_.size()` guard and
post-increment (ntt_engine.cpp:307-323). -/
def nttForwardLevel (len : Nat) (st : List Nat × Nat) : List Nat × Nat :=
  (List.range (256 / len)).foldl
    (fun st' bi =>
      if st'.2 < 256 then
        (nttBlock (zetasAt st'.2) (bi * len) (len / 2) st'.1, st'.2 + 1)
      else st')
    st

/-- `ScalarNTTEngine::ntt_forward` (ntt_engine.cpp:298-324): bit reversal,
then 8 Cooley-Tukey levels with len = 2, 4, …, 256, k starting at 1. -/
def ntt_forward (poly : List Nat) : List Nat :=
  ([2, 4, 8, 16, 32, 64, 128, 256].foldl (fun st len => nttForwardLevel len st)
    (bit_reverse poly, 1)).1

/-- One inverse level: the start-loop with the `k < zetas_inv_.size()` guard
and post-decrement on the `uint32_t` counter, which wraps to 2^32 − 1 below
zero (ntt_engine.cpp:332-348). -/
def nttInverseLevel (len : Nat) (st : List Nat × Nat) : List Nat × Nat :=
  (List.range (256 / len)).foldl
    (fun st' bi =>
      if st'.2 < 256 then
        (nttBlock (zetasInvAt st'.2) (bi * len) (len / 2) st'.1,
          if st'.2 = 0 then 2 ^ 32 - 1 else st'.2 - 1)
      else st')
    st

/-- `ScalarNTTEngine::ntt_inverse` (ntt_engine.cpp:326-357): 7 levels with
len = 128, …, 2 and k starting at 127, then bit reversal, then the final
`poly[i] = montgomery_reduce(poly[i] * n_inv_)` (stored into `uint32_t`). -/
def ntt_inverse (poly : List Nat) : List Nat :=
  (bit_reverse
      ([128, 64, 32, 16, 8, 4, 2].foldl (fun st len => nttInverseLevel len st)
        (poly, 127)).1).map
    fun x => ((montgomery_reduce ((x : Int) * (n_inv : Int))).emod (2 ^ 32)).toNat

/-- The concrete failing input for the round-trip claim: the polynomial
p = (1, 0, …, 0). -/
def nttP0 : List Nat := 1 :: List.replicate 255 0

/-- `bit_reverse nttP0`, precomputed for the level-by-level evaluation. -/
def nttBr : List Nat :=
  [1, 0, 0, 0, 0, 0, 0, 0, 0, 0, 0, 0, 0, 0, 0, 0, 0, 0, 0, 0, 0, 0, 0, 0, 0, 0, 0, 0, 0, 0, 0, 0, 0, 0, 0, 0, 0, 0, 0, 0, 0, 0, 0, 0, 0, 0, 0, 0, 0, 0, 0, 0, 0, 0, 0, 0, 0, 0, 0, 0, 0, 0, 0, 0, 0, 0, 0, 0, 0, 0, 0, 0, 0, 0, 0, 0, 0, 0, 0, 0, 0, 0, 0, 0, 0, 0, 0, 0, 0, 0, 0, 0, 0, 0, 0, 0, 0, 0, 0, 0, 0, 0, 0, 0, 0, 0, 0, 0, 0, 0, 0, 0, 0, 0, 0, 0, 0, 0, 0, 0, 0, 0, 0, 0, 0, 0, 0, 0, 0, 0, 0, 0, 0, 0, 0, 0, 0, 0, 0, 0, 0, 0, 0, 0, 0, 0, 0, 0, 0, 0, 0, 0, 0, 0, 0, 0, 0, 0, 0, 0, 0, 0, 0, 0, 0, 0, 0, 0, 0, 0, 0, 0, 0, 0, 0, 0, 0, 0, 0, 0, 0, 0, 0, 0, 0, 0, 0, 0, 0, 0, 0, 0, 0, 0, 0, 0, 0, 0, 0, 0, 0, 0, 0, 0, 0, 0, 0, 0, 0, 0, 0, 0, 0, 0, 0, 0, 0, 0, 0, 0, 0, 0, 0, 0, 0, 0, 0, 0, 0, 0, 0, 0, 0, 0, 0, 0, 0, 0, 0, 0, 0, 0, 0, 0, 0, 0, 0, 0, 0, 0, 0, 0, 0, 0, 0, 0]

/-- Forward level len = 2 output. -/
def nttF1 : List Nat :=
  [1, 1, 0, 0, 0, 0, 0, 0, 0, 0, 0, 0, 0, 0, 0, 0, 0, 0, 0, 0, 0, 0, 0, 0, 0, 0, 0, 0, 0, 0, 0, 0, 0, 0, 0, 0, 0, 0, 0, 0, 0, 0, 0, 0, 0, 0, 0, 0, 0, 0, 0, 0, 0, 0, 0, 0, 0, 0, 0, 0, 0, 0, 0, 0, 0, 0, 0, 0, 0, 0, 0, 0, 0, 0, 0, 0, 0, 0, 0, 0, 0, 0, 0, 0, 0, 0, 0, 0, 0, 0, 0, 0, 0, 0, 0, 0, 0, 0, 0, 0, 0, 0, 0, 0, 0, 0, 0, 0, 0, 0, 0, 0, 0, 0, 0, 0, 0, 0, 0, 0, 0, 0, 0, 0, 0, 0, 0, 0, 0, 0, 0, 0, 0, 0, 0, 0, 0, 0, 0, 0, 0, 0, 0, 0, 0, 0, 0, 0, 0, 0, 0, 0, 0, 0, 0, 0, 0, 0, 0, 0, 0, 0, 0, 0, 0, 0, 0, 0, 0, 0, 0, 0, 0, 0, 0, 0, 0, 0, 0, 0, 0, 0, 0, 0, 0, 0, 0, 0, 0, 0, 0, 0, 0, 0, 0, 0, 0, 0, 0, 0, 0, 0, 0, 0, 0, 0, 0, 0, 0, 0, 0, 0, 0, 0, 0, 0, 0, 0, 0, 0, 0, 0, 0, 0, 0, 0, 0, 0, 0, 0, 0, 0, 0, 0, 0, 0, 0, 0, 0, 0, 0, 0, 0, 0, 0, 0, 0, 0, 0, 0, 0, 0, 0, 0, 0, 0]

/-- Forward level len = 4 output. -/
def nttF2 : List Nat :=
  [1, 1, 1, 1, 0, 0, 0, 0, 0, 0, 0, 0, 0, 0, 0, 0, 0, 0, 0, 0, 0, 0, 0, 0, 0, 0, 0, 0, 0, 0, 0, 0, 0, 0, 0, 0, 0, 0, 0, 0, 0, 0, 0, 0, 0, 0, 0, 0, 0, 0, 0, 0, 0, 0, 0, 0, 0, 0, 0, 0, 0, 0, 0, 0, 0, 0, 0, 0, 0, 0, 0, 0, 0, 0, 0, 0, 0, 0, 0, 0, 0, 0, 0, 0, 0, 0, 0, 0, 0, 0, 0, 0, 0, 0, 0, 0, 0, 0, 0, 0, 0, 0, 0, 0, 0, 0, 0, 0, 0, 0, 0, 0, 0, 0, 0, 0, 0, 0, 0, 0, 0, 0, 0, 0, 0, 0, 0, 0, 0, 0, 0, 0, 0, 0, 0, 0, 0, 0, 0, 0, 0, 0, 0, 0, 0, 0, 0, 0, 0, 0, 0, 0, 0, 0, 0, 0, 0, 0, 0, 0, 0, 0, 0, 0, 0, 0, 0, 0, 0, 0, 0, 0, 0, 0, 0, 0, 0, 0, 0, 0, 0, 0, 0, 0, 0, 0, 0, 0, 0, 0, 0, 0, 0, 0, 0, 0, 0, 0, 0, 0, 0, 0, 0, 0, 0, 0, 0, 0, 0, 0, 0, 0, 0, 0, 0, 0, 0, 0, 0, 0, 0, 0, 0, 0, 0, 0, 0, 0, 0, 0, 0, 0, 0, 0, 0, 0, 0, 0, 0, 0, 0, 0, 0, 0, 0, 0, 0, 0, 0, 0, 0, 0, 0, 0, 0, 0]

/-- Forward level len = 8 output. -/
def nttF3 : List Nat :=
  [1, 1, 1, 1, 1, 1, 1, 1, 0, 0, 0, 0, 0, 0, 0, 0, 0, 0, 0, 0, 0, 0, 0, 0, 0, 0, 0, 0, 0, 0, 0, 0, 0, 0, 0, 0, 0, 0, 0, 0, 0, 0, 0, 0, 0, 0, 0, 0, 0, 0, 0, 0, 0, 0, 0, 0, 0, 0, 0, 0, 0, 0, 0, 0, 0, 0, 0, 0, 0, 0, 0, 0, 0, 0, 0, 0, 0, 0, 0, 0, 0, 0, 0, 0, 0, 0, 0, 0, 0, 0, 0, 0, 0, 0, 0, 0, 0, 0, 0, 0, 0, 0, 0, 0, 0, 0, 0, 0, 0, 0, 0, 0, 0, 0, 0, 0, 0, 0, 0, 0, 0, 0, 0, 0, 0, 0, 0, 0, 0, 0, 0, 0, 0, 0, 0, 0, 0, 0, 0, 0, 0, 0, 0, 0, 0, 0, 0, 0, 0, 0, 0, 0, 0, 0, 0, 0, 0, 0, 0, 0, 0, 0, 0, 0, 0, 0, 0, 0, 0, 0, 0, 0, 0, 0, 0, 0, 0, 0, 0, 0, 0, 0, 0, 0, 0, 0, 0, 0, 0, 0, 0, 0, 0, 0, 0, 0, 0, 0, 0, 0, 0, 0, 0, 0, 0, 0, 0, 0, 0, 0, 0, 0, 0, 0, 0, 0, 0, 0, 0, 0, 0, 0, 0, 0, 0, 0, 0, 0, 0, 0, 0, 0, 0, 0, 0, 0, 0, 0, 0, 0, 0, 0, 0, 0, 0, 0, 0, 0, 0, 0, 0, 0, 0, 0, 0, 0]

/-- Forward level len = 16 output. -/
def nttF4 : List Nat :=
  [1, 1, 1, 1, 1, 1, 1, 1, 1, 1, 1, 1, 1, 1, 1, 1, 0, 0, 0, 0, 0, 0, 0, 0, 0, 0, 0, 0, 0, 0, 0, 0, 0, 0, 0, 0, 0, 0, 0, 0, 0, 0, 0, 0, 0, 0, 0, 0, 0, 0, 0, 0, 0, 0, 0, 0, 0, 0, 0, 0, 0, 0, 0, 0, 0, 0, 0, 0, 0, 0, 0, 0, 0, 0, 0, 0, 0, 0, 0, 0, 0, 0, 0, 0, 0, 0, 0, 0, 0, 0, 0, 0, 0, 0, 0, 0, 0, 0, 0, 0, 0, 0, 0, 0, 0, 0, 0, 0, 0, 0, 0, 0, 0, 0, 0, 0, 0, 0, 0, 0, 0, 0, 0, 0, 0, 0, 0, 0, 0, 0, 0, 0, 0, 0, 0, 0, 0, 0, 0, 0, 0, 0, 0, 0, 0, 0, 0, 0, 0, 0, 0, 0, 0, 0, 0, 0, 0, 0, 0, 0, 0, 0, 0, 0, 0, 0, 0, 0, 0, 0, 0, 0, 0, 0, 0, 0, 0, 0, 0, 0, 0, 0, 0, 0, 0, 0, 0, 0, 0, 0, 0, 0, 0, 0, 0, 0, 0, 0, 0, 0, 0, 0, 0, 0, 0, 0, 0, 0, 0, 0, 0, 0, 0, 0, 0, 0, 0, 0, 0, 0, 0, 0, 0, 0, 0, 0, 0, 0, 0, 0, 0, 0, 0, 0, 0, 0, 0, 0, 0, 0, 0, 0, 0, 0, 0, 0, 0, 0, 0, 0, 0, 0, 0, 0, 0, 0]

/-- Forward level len = 32 output. -/
def nttF5 : List Nat :=
  [1, 1, 1, 1, 1, 1, 1, 1, 1, 1, 1, 1, 1, 1, 1, 1, 1, 1, 1, 1, 1, 1, 1, 1, 1, 1, 1, 1, 1, 1, 1, 1, 0, 0, 0, 0, 0, 0, 0, 0, 0, 0, 0, 0, 0, 0, 0, 0, 0, 0, 0, 0, 0, 0, 0, 0, 0, 0, 0, 0, 0, 0, 0, 0, 0, 0, 0, 0, 0, 0, 0, 0, 0, 0, 0, 0, 0, 0, 0, 0, 0, 0, 0, 0, 0, 0, 0, 0, 0, 0, 0, 0, 0, 0, 0, 0, 0, 0, 0, 0, 0, 0, 0, 0, 0, 0, 0, 0, 0, 0, 0, 0, 0, 0, 0, 0, 0, 0, 0, 0, 0, 0, 0, 0, 0, 0, 0, 0, 0, 0, 0, 0, 0, 0, 0, 0, 0, 0, 0, 0, 0, 0, 0, 0, 0, 0, 0, 0, 0, 0, 0, 0, 0, 0, 0, 0, 0, 0, 0, 0, 0, 0, 0, 0, 0, 0, 0, 0, 0, 0, 0, 0, 0, 0, 0, 0, 0, 0, 0, 0, 0, 0, 0, 0, 0, 0, 0, 0, 0, 0, 0, 0, 0, 0, 0, 0, 0, 0, 0, 0, 0, 0, 0, 0, 0, 0, 0, 0, 0, 0, 0, 0, 0, 0, 0, 0, 0, 0, 0, 0, 0, 0, 0, 0, 0, 0, 0, 0, 0, 0, 0, 0, 0, 0, 0, 0, 0, 0, 0, 0, 0, 0, 0, 0, 0, 0, 0, 0, 0, 0, 0, 0, 0, 0, 0, 0]

/-- Forward level len = 64 output. -/
def nttF6 : List Nat :=
  [1, 1, 1, 1, 1, 1, 1, 1, 1, 1, 1, 1, 1, 1, 1, 1, 1, 1, 1, 1, 1, 1, 1, 1, 1, 1, 1, 1, 1, 1, 1, 1, 1, 1, 1, 1, 1, 1, 1, 1, 1, 1, 1, 1, 1, 1, 1, 1, 1, 1, 1, 1, 1, 1, 1, 1, 1, 1, 1, 1, 1, 1, 1, 1, 0, 0, 0, 0, 0, 0, 0, 0, 0, 0, 0, 0, 0, 0, 0, 0, 0, 0, 0, 0, 0, 0, 0, 0, 0, 0, 0, 0, 0, 0, 0, 0, 0, 0, 0, 0, 0, 0, 0, 0, 0, 0, 0, 0, 0, 0, 0, 0, 0, 0, 0, 0, 0, 0, 0, 0, 0, 0, 0, 0, 0, 0, 0, 0, 0, 0, 0, 0, 0, 0, 0, 0, 0, 0, 0, 0, 0, 0, 0, 0, 0, 0, 0, 0, 0, 0, 0, 0, 0, 0, 0, 0, 0, 0, 0, 0, 0, 0, 0, 0, 0, 0, 0, 0, 0, 0, 0, 0, 0, 0, 0, 0, 0, 0, 0, 0, 0, 0, 0, 0, 0, 0, 0, 0, 0, 0, 0, 0, 0, 0, 0, 0, 0, 0, 0, 0, 0, 0, 0, 0, 0, 0, 0, 0, 0, 0, 0, 0, 0, 0, 0, 0, 0, 0, 0, 0, 0, 0, 0, 0, 0, 0, 0, 0, 0, 0, 0, 0, 0, 0, 0, 0, 0, 0, 0, 0, 0, 0, 0, 0, 0, 0, 0, 0, 0, 0, 0, 0, 0, 0, 0, 0]

/-- Forward level len = 128 output. -/
def nttF7 : List Nat :=
  [1, 1, 1, 1, 1, 1, 1, 1, 1, 1, 1, 1, 1, 1, 1, 1, 1, 1, 1, 1, 1, 1, 1, 1, 1, 1, 1, 1, 1, 1, 1, 1, 1, 1, 1, 1, 1, 1, 1, 1, 1, 1, 1, 1, 1, 1, 1, 1, 1, 1, 1, 1, 1, 1, 1, 1, 1, 1, 1, 1, 1, 1, 1, 1, 1, 1, 1, 1, 1, 1, 1, 1, 1, 1, 1, 1, 1, 1, 1, 1, 1, 1, 1, 1, 1, 1, 1, 1, 1, 1, 1, 1, 1, 1, 1, 1, 1, 1, 1, 1, 1, 1, 1, 1, 1, 1, 1, 1, 1, 1, 1, 1, 1, 1, 1, 1, 1, 1, 1, 1, 1, 1, 1, 1, 1, 1, 1, 1, 0, 0, 0, 0, 0, 0, 0, 0, 0, 0, 0, 0, 0, 0, 0, 0, 0, 0, 0, 0, 0, 0, 0, 0, 0, 0, 0, 0, 0, 0, 0, 0, 0, 0, 0, 0, 0, 0, 0, 0, 0, 0, 0, 0, 0, 0, 0, 0, 0, 0, 0, 0, 0, 0, 0, 0, 0, 0, 0, 0, 0, 0, 0, 0, 0, 0, 0, 0, 0, 0, 0, 0, 0, 0, 0, 0, 0, 0, 0, 0, 0, 0, 0, 0, 0, 0, 0, 0, 0, 0, 0, 0, 0, 0, 0, 0, 0, 0, 0, 0, 0, 0, 0, 0, 0, 0, 0, 0, 0, 0, 0, 0, 0, 0, 0, 0, 0, 0, 0, 0, 0, 0, 0, 0, 0, 0, 0, 0]

/-- Forward level len = 256 output. -/
def nttF8 : List Nat :=
  [1, 1, 1, 1, 1, 1, 1, 1, 1, 1, 1, 1, 1, 1, 1, 1, 1, 1, 1, 1, 1, 1, 1, 1, 1, 1, 1, 1, 1, 1, 1, 1, 1, 1, 1, 1, 1, 1, 1, 1, 1, 1, 1, 1, 1, 1, 1, 1, 1, 1, 1, 1, 1, 1, 1, 1, 1, 1, 1, 1, 1, 1, 1, 1, 1, 1, 1, 1, 1, 1, 1, 1, 1, 1, 1, 1, 1, 1, 1, 1, 1, 1, 1, 1, 1, 1, 1, 1, 1, 1, 1, 1, 1, 1, 1, 1, 1, 1, 1, 1, 1, 1, 1, 1, 1, 1, 1, 1, 1, 1, 1, 1, 1, 1, 1, 1, 1, 1, 1, 1, 1, 1, 1, 1, 1, 1, 1, 1, 1, 1, 1, 1, 1, 1, 1, 1, 1, 1, 1, 1, 1, 1, 1, 1, 1, 1, 1, 1, 1, 1, 1, 1, 1, 1, 1, 1, 1, 1, 1, 1, 1, 1, 1, 1, 1, 1, 1, 1, 1, 1, 1, 1, 1, 1, 1, 1, 1, 1, 1, 1, 1, 1, 1, 1, 1, 1, 1, 1, 1, 1, 1, 1, 1, 1, 1, 1, 1, 1, 1, 1, 1, 1, 1, 1, 1, 1, 1, 1, 1, 1, 1, 1, 1, 1, 1, 1, 1, 1, 1, 1, 1, 1, 1, 1, 1, 1, 1, 1, 1, 1, 1, 1, 1, 1, 1, 1, 1, 1, 1, 1, 1, 1, 1, 1, 1, 1, 1, 1, 1, 1, 1, 1, 1, 1, 1, 1]

/-- Inverse level len = 128 output. -/
def nttI1 : List Nat :=
  [1, 1, 1, 1, 1, 1, 1, 1, 1, 1, 1, 1, 1, 1, 1, 1, 1, 1, 1, 1, 1, 1, 1, 1, 1, 1, 1, 1, 1, 1, 1, 1, 1, 1, 1, 1, 1, 1, 1, 1, 1, 1, 1, 1, 1, 1, 1, 1, 1, 1, 1, 1, 1, 1, 1, 1, 1, 1, 1, 1, 1, 1, 1, 1, 1, 1, 1, 1, 1, 1, 1, 1, 1, 1, 1, 1, 1, 1, 1, 1, 1, 1, 1, 1, 1, 1, 1, 1, 1, 1, 1, 1, 1, 1, 1, 1, 1, 1, 1, 1, 1, 1, 1, 1, 1, 1, 1, 1, 1, 1, 1, 1, 1, 1, 1, 1, 1, 1, 1, 1, 1, 1, 1, 1, 1, 1, 1, 1, 1720942, 1720942, 1720942, 1720942, 1720942, 1720942, 1720942, 1720942, 1720942, 1720942, 1720942, 1720942, 1720942, 1720942, 1720942, 1720942, 1720942, 1720942, 1720942, 1720942, 1720942, 1720942, 1720942, 1720942, 1720942, 1720942, 1720942, 1720942, 1720942, 1720942, 1720942, 1720942, 1720942, 1720942, 1720942, 1720942, 1720942, 1720942, 1720942, 1720942, 1720942, 1720942, 1720942, 1720942, 1720942, 1720942, 1720942, 1720942, 1720942, 1720942, 1720942, 1720942, 1720942, 1720942, 1720942, 1720942, 1720942, 1720942, 1720942, 1720942, 1720942, 1720942, 1720942, 1720942, 2472852, 2472852, 2472852, 2472852, 2472852, 2472852, 2472852, 2472852, 2472852, 2472852, 2472852, 2472852, 2472852, 2472852, 2472852, 2472852, 2472852, 2472852, 2472852, 2472852, 2472852, 2472852, 2472852, 2472852, 2472852, 2472852, 2472852, 2472852, 2472852, 2472852, 2472852, 2472852, 2472852, 2472852, 2472852, 2472852, 2472852, 2472852, 2472852, 2472852, 2472852, 2472852, 2472852, 2472852, 2472852, 2472852, 2472852, 2472852, 2472852, 2472852, 2472852, 2472852, 2472852, 2472852, 2472852, 2472852, 2472852, 2472852, 2472852, 2472852, 2472852, 2472852, 2472852, 2472852]

/-- Inverse level len = 64 output. -/
def nttI2 : List Nat :=
  [2290247, 2290247, 2290247, 2290247, 2290247, 2290247, 2290247, 2290247, 2290247, 2290247, 2290247, 2290247, 2290247, 2290247, 2290247, 2290247, 2290247, 2290247, 2290247, 2290247, 2290247, 2290247, 2290247, 2290247, 2290247, 2290247, 2290247, 2290247, 2290247, 2290247, 2290247, 2290247, 1903547, 1903547, 1903547, 1903547, 1903547, 1903547, 1903547, 1903547, 1903547, 1903547, 1903547, 1903547, 1903547, 1903547, 1903547, 1903547, 1903547, 1903547, 1903547, 1903547, 1903547, 1903547, 1903547, 1903547, 1903547, 1903547, 1903547, 1903547, 1903547, 1903547, 1903547, 1903547, 5373349, 5373349, 5373349, 5373349, 5373349, 5373349, 5373349, 5373349, 5373349, 5373349, 5373349, 5373349, 5373349, 5373349, 5373349, 5373349, 5373349, 5373349, 5373349, 5373349, 5373349, 5373349, 5373349, 5373349, 5373349, 5373349, 5373349, 5373349, 5373349, 5373349, 5373349, 5373349, 7200862, 7200862, 7200862, 7200862, 7200862, 7200862, 7200862, 7200862, 7200862, 7200862, 7200862, 7200862, 7200862, 7200862, 7200862, 7200862, 7200862, 7200862, 7200862, 7200862, 7200862, 7200862, 7200862, 7200862, 7200862, 7200862, 7200862, 7200862, 7200862, 7200862, 7200862, 7200862, 1410520, 1410520, 1410520, 1410520, 1410520, 1410520, 1410520, 1410520, 1410520, 1410520, 1410520, 1410520, 1410520, 1410520, 1410520, 1410520, 1410520, 1410520, 1410520, 1410520, 1410520, 1410520, 1410520, 1410520, 1410520, 1410520, 1410520, 1410520, 1410520, 1410520, 1410520, 1410520, 2031364, 2031364, 2031364, 2031364, 2031364, 2031364, 2031364, 2031364, 2031364, 2031364, 2031364, 2031364, 2031364, 2031364, 2031364, 2031364, 2031364, 2031364, 2031364, 2031364, 2031364, 2031364, 2031364, 2031364, 2031364, 2031364, 2031364, 2031364, 2031364, 2031364, 2031364, 2031364, 3392049, 3392049, 3392049, 3392049, 3392049, 3392049, 3392049, 3392049, 3392049, 3392049, 3392049, 3392049, 3392049, 3392049, 3392049, 3392049, 3392049, 3392049, 3392049, 3392049, 3392049, 3392049, 3392049, 3392049, 3392049, 3392049, 3392049, 3392049, 3392049, 3392049, 3392049, 3392049, 5747447, 5747447, 5747447, 5747447, 5747447, 5747447, 5747447, 5747447, 5747447, 5747447, 5747447, 5747447, 5747447, 5747447, 5747447, 5747447, 5747447, 5747447, 5747447, 5747447, 5747447, 5747447, 5747447, 5747447, 5747447, 5747447, 5747447, 5747447, 5747447, 5747447, 5747447, 5747447]

/-- Inverse level len = 32 output. -/
def nttI3 : List Nat :=
  [1846214, 1846214, 1846214, 1846214, 1846214, 1846214, 1846214, 1846214, 1846214, 1846214, 1846214, 1846214, 1846214, 1846214, 1846214, 1846214, 2734280, 2734280, 2734280, 2734280, 2734280, 2734280, 2734280, 2734280, 2734280, 2734280, 2734280, 2734280, 2734280, 2734280, 2734280, 2734280, 1442146, 1442146, 1442146, 1442146, 1442146, 1442146, 1442146, 1442146, 1442146, 1442146, 1442146, 1442146, 1442146, 1442146, 1442146, 1442146, 2364948, 2364948, 2364948, 2364948, 2364948, 2364948, 2364948, 2364948, 2364948, 2364948, 2364948, 2364948, 2364948, 2364948, 2364948, 2364948, 2703619, 2703619, 2703619, 2703619, 2703619, 2703619, 2703619, 2703619, 2703619, 2703619, 2703619, 2703619, 2703619, 2703619, 2703619, 2703619, 3856454, 3856454, 3856454, 3856454, 3856454, 3856454, 3856454, 3856454, 3856454, 3856454, 3856454, 3856454, 3856454, 3856454, 3856454, 3856454, 2315629, 2315629, 2315629, 2315629, 2315629, 2315629, 2315629, 2315629, 2315629, 2315629, 2315629, 2315629, 2315629, 2315629, 2315629, 2315629, 3705678, 3705678, 3705678, 3705678, 3705678, 3705678, 3705678, 3705678, 3705678, 3705678, 3705678, 3705678, 3705678, 3705678, 3705678, 3705678, 2089480, 2089480, 2089480, 2089480, 2089480, 2089480, 2089480, 2089480, 2089480, 2089480, 2089480, 2089480, 2089480, 2089480, 2089480, 2089480, 4925352, 4925352, 4925352, 4925352, 4925352, 4925352, 4925352, 4925352, 4925352, 4925352, 4925352, 4925352, 4925352, 4925352, 4925352, 4925352, 19045, 19045, 19045, 19045, 19045, 19045, 19045, 19045, 19045, 19045, 19045, 19045, 19045, 19045, 19045, 19045, 4043683, 4043683, 4043683, 4043683, 4043683, 4043683, 4043683, 4043683, 4043683, 4043683, 4043683, 4043683, 4043683, 4043683, 4043683, 4043683, 3221617, 3221617, 3221617, 3221617, 3221617, 3221617, 3221617, 3221617, 3221617, 3221617, 3221617, 3221617, 3221617, 3221617, 3221617, 3221617, 3562481, 3562481, 3562481, 3562481, 3562481, 3562481, 3562481, 3562481, 3562481, 3562481, 3562481, 3562481, 3562481, 3562481, 3562481, 3562481, 346553, 346553, 346553, 346553, 346553, 346553, 346553, 346553, 346553, 346553, 346553, 346553, 346553, 346553, 346553, 346553, 2767924, 2767924, 2767924, 2767924, 2767924, 2767924, 2767924, 2767924, 2767924, 2767924, 2767924, 2767924, 2767924, 2767924, 2767924, 2767924]

/-- Inverse level len = 16 output. -/
def nttI4 : List Nat :=
  [894888, 894888, 894888, 894888, 894888, 894888, 894888, 894888, 2797540, 2797540, 2797540, 2797540, 2797540, 2797540, 2797540, 2797540, 2280021, 2280021, 2280021, 2280021, 2280021, 2280021, 2280021, 2280021, 3188539, 3188539, 3188539, 3188539, 3188539, 3188539, 3188539, 3188539, 8312759, 8312759, 8312759, 8312759, 8312759, 8312759, 8312759, 8312759, 7145742, 7145742, 7145742, 7145742, 7145742, 7145742, 7145742, 7145742, 7564017, 7564017, 7564017, 7564017, 7564017, 7564017, 7564017, 7564017, 1359671, 1359671, 1359671, 1359671, 1359671, 1359671, 1359671, 1359671, 1928760, 1928760, 1928760, 1928760, 1928760, 1928760, 1928760, 1928760, 3478478, 3478478, 3478478, 3478478, 3478478, 3478478, 3478478, 3478478, 3295265, 3295265, 3295265, 3295265, 3295265, 3295265, 3295265, 3295265, 231018, 231018, 231018, 231018, 231018, 231018, 231018, 231018, 2522330, 2522330, 2522330, 2522330, 2522330, 2522330, 2522330, 2522330, 6302720, 6302720, 6302720, 6302720, 6302720, 6302720, 6302720, 6302720, 1303284, 1303284, 1303284, 1303284, 1303284, 1303284, 1303284, 1303284, 1921447, 1921447, 1921447, 1921447, 1921447, 1921447, 1921447, 1921447, 2965448, 2965448, 2965448, 2965448, 2965448, 2965448, 2965448, 2965448, 5407304, 5407304, 5407304, 5407304, 5407304, 5407304, 5407304, 5407304, 3907659, 3907659, 3907659, 3907659, 3907659, 3907659, 3907659, 3907659, 5943045, 5943045, 5943045, 5943045, 5943045, 5943045, 5943045, 5943045, 6115225, 6115225, 6115225, 6115225, 6115225, 6115225, 6115225, 6115225, 6497074, 6497074, 6497074, 6497074, 6497074, 6497074, 6497074, 6497074, 3879576, 3879576, 3879576, 3879576, 3879576, 3879576, 3879576, 3879576, 4207790, 4207790, 4207790, 4207790, 4207790, 4207790, 4207790, 4207790, 7522477, 7522477, 7522477, 7522477, 7522477, 7522477, 7522477, 7522477, 3114549, 3114549, 3114549, 3114549, 3114549, 3114549, 3114549, 3114549, 24093, 24093, 24093, 24093, 24093, 24093, 24093, 24093, 7100869, 7100869, 7100869, 7100869, 7100869, 7100869, 7100869, 7100869, 1842038, 1842038, 1842038, 1842038, 1842038, 1842038, 1842038, 1842038, 3044860, 3044860, 3044860, 3044860, 3044860, 3044860, 3044860, 3044860, 7512518, 7512518, 7512518, 7512518, 7512518, 7512518, 7512518, 7512518, 2217122, 2217122, 2217122, 2217122, 2217122, 2217122, 2217122, 2217122]

/-- Inverse level len = 8 output. -/
def nttI5 : List Nat :=
  [6131268, 6131268, 6131268, 6131268, 8232717, 8232717, 8232717, 8232717, 604933, 604933, 604933, 604933, 803522, 803522, 803522, 803522, 8011580, 8011580, 8011580, 8011580, 742254, 742254, 742254, 742254, 2827109, 2827109, 2827109, 2827109, 3549969, 3549969, 3549969, 3549969, 7273383, 7273383, 7273383, 7273383, 971718, 971718, 971718, 971718, 1058151, 1058151, 1058151, 1058151, 4852916, 4852916, 4852916, 4852916, 4572400, 4572400, 4572400, 4572400, 2175217, 2175217, 2175217, 2175217, 7043455, 7043455, 7043455, 7043455, 8250096, 8250096, 8250096, 8250096, 2150071, 2150071, 2150071, 2150071, 5901241, 5901241, 5901241, 5901241, 8345178, 8345178, 8345178, 8345178, 2805570, 2805570, 2805570, 2805570, 2720711, 2720711, 2720711, 2720711, 3869819, 3869819, 3869819, 3869819, 2523921, 2523921, 2523921, 2523921, 2131907, 2131907, 2131907, 2131907, 6910, 6910, 6910, 6910, 5037750, 5037750, 5037750, 5037750, 609434, 609434, 609434, 609434, 3615589, 3615589, 3615589, 3615589, 1162653, 1162653, 1162653, 1162653, 1443915, 1443915, 1443915, 1443915, 8281271, 8281271, 8281271, 8281271, 8135832, 8135832, 8135832, 8135832, 8137635, 8137635, 8137635, 8137635, 1987053, 1987053, 1987053, 1987053, 3079813, 3079813, 3079813, 3079813, 7734795, 7734795, 7734795, 7734795, 823823, 823823, 823823, 823823, 2804870, 2804870, 2804870, 2804870, 5364257, 5364257, 5364257, 5364257, 6521833, 6521833, 6521833, 6521833, 2198184, 2198184, 2198184, 2198184, 5845641, 5845641, 5845641, 5845641, 376646, 376646, 376646, 376646, 4237085, 4237085, 4237085, 4237085, 2578656, 2578656, 2578656, 2578656, 993871, 993871, 993871, 993871, 3688832, 3688832, 3688832, 3688832, 540123, 540123, 540123, 540123, 6778243, 6778243, 6778243, 6778243, 8266711, 8266711, 8266711, 8266711, 7988024, 7988024, 7988024, 7988024, 2434866, 2434866, 2434866, 2434866, 1793291, 1793291, 1793291, 1793291, 2448687, 2448687, 2448687, 2448687, 3825011, 3825011, 3825011, 3825011, 1996310, 1996310, 1996310, 1996310, 1647599, 1647599, 1647599, 1647599, 2036477, 2036477, 2036477, 2036477, 2653169, 2653169, 2653169, 2653169, 3436551, 3436551, 3436551, 3436551, 585501, 585501, 585501, 585501, 6059118, 6059118, 6059118, 6059118, 7147770, 7147770, 7147770, 7147770, 1480266, 1480266, 1480266, 1480266]

/-- Inverse level len = 4 output. -/
def nttI6 : List Nat :=
  [4320029, 4320029, 7942507, 7942507, 6731923, 6731923, 1353094, 1353094, 1941954, 1941954, 3461704, 3461704, 7594190, 7594190, 6587063, 6587063, 4373340, 4373340, 3269403, 3269403, 103775, 103775, 5574525, 5574525, 7888818, 7888818, 1959192, 1959192, 3447701, 3447701, 3652237, 3652237, 911602, 911602, 5254747, 5254747, 1683129, 1683129, 4454099, 4454099, 3217042, 3217042, 3093052, 3093052, 847857, 847857, 477558, 477558, 2666335, 2666335, 6478465, 6478465, 3018081, 3018081, 5526145, 5526145, 1802999, 1802999, 3903494, 3903494, 7763900, 7763900, 355875, 355875, 2429961, 2429961, 6063973, 6063973, 3415041, 3415041, 7024, 7024, 7770002, 7770002, 539937, 539937, 2028483, 2028483, 3582657, 3582657, 3120916, 3120916, 6514298, 6514298, 8206213, 8206213, 3727217, 3727217, 7709677, 7709677, 1531957, 1531957, 3326854, 3326854, 5130752, 5130752, 3481192, 3481192, 726420, 726420, 2033144, 2033144, 8042356, 8042356, 2499090, 2499090, 2913570, 2913570, 1122468, 1122468, 6108710, 6108710, 989378, 989378, 5529720, 5529720, 549725, 549725, 2338105, 2338105, 7956354, 7956354, 225771, 225771, 6263108, 6263108, 1628139, 1628139, 3279280, 3279280, 4615573, 4615573, 6446958, 6446958, 1720940, 1720940, 2753753, 2753753, 3405873, 3405873, 7276592, 7276592, 8192998, 8192998, 1497411, 1497411, 4344027, 4344027, 2470913, 2470913, 7332619, 7332619, 4994708, 4994708, 5733806, 5733806, 617361, 617361, 4045888, 4045888, 1606997, 1606997, 2789371, 2789371, 3111134, 3111134, 4393523, 4393523, 8032617, 8032617, 5294884, 5294884, 3664000, 3664000, 4810170, 4810170, 1420027, 1420027, 7931077, 7931077, 6477754, 6477754, 8084197, 8084197, 877278, 877278, 2313761, 2313761, 3712893, 3712893, 1561145, 1561145, 3665588, 3665588, 1510481, 1510481, 8015192, 8015192, 137813, 137813, 164464, 164464, 7431167, 7431167, 7965223, 7965223, 1098301, 1098301, 2993880, 2993880, 4786494, 4786494, 1392995, 1392995, 3504379, 3504379, 677838, 677838, 2785559, 2785559, 1039786, 1039786, 7146626, 7146626, 752029, 752029, 6736961, 6736961, 1161392, 1161392, 2911562, 2911562, 3069977, 3069977, 6430153, 6430153, 579657, 579657, 2106820, 2106820, 7752073, 7752073, 5993138, 5993138, 4420079, 4420079, 7698157, 7698157, 5724708, 5724708, 190415, 190415, 24094, 24094, 2936438, 2936438]

/-- Inverse level len = 2 output. -/
def nttI7 : List Nat :=
  [3670151, 783282, 7942507, 7942507, 6731923, 6731923, 1353094, 1353094, 1941954, 1941954, 3461704, 3461704, 7594190, 7594190, 6587063, 6587063, 4373340, 4373340, 3269403, 3269403, 103775, 103775, 5574525, 5574525, 7888818, 7888818, 1959192, 1959192, 3447701, 3447701, 3652237, 3652237, 911602, 911602, 5254747, 5254747, 1683129, 1683129, 4454099, 4454099, 3217042, 3217042, 3093052, 3093052, 847857, 847857, 477558, 477558, 2666335, 2666335, 6478465, 6478465, 3018081, 3018081, 5526145, 5526145, 1802999, 1802999, 3903494, 3903494, 7763900, 7763900, 355875, 355875, 2429961, 2429961, 6063973, 6063973, 3415041, 3415041, 7024, 7024, 7770002, 7770002, 539937, 539937, 2028483, 2028483, 3582657, 3582657, 3120916, 3120916, 6514298, 6514298, 8206213, 8206213, 3727217, 3727217, 7709677, 7709677, 1531957, 1531957, 3326854, 3326854, 5130752, 5130752, 3481192, 3481192, 726420, 726420, 2033144, 2033144, 8042356, 8042356, 2499090, 2499090, 2913570, 2913570, 1122468, 1122468, 6108710, 6108710, 989378, 989378, 5529720, 5529720, 549725, 549725, 2338105, 2338105, 7956354, 7956354, 225771, 225771, 6263108, 6263108, 1628139, 1628139, 3279280, 3279280, 4615573, 4615573, 6446958, 6446958, 1720940, 1720940, 2753753, 2753753, 3405873, 3405873, 7276592, 7276592, 8192998, 8192998, 1497411, 1497411, 4344027, 4344027, 2470913, 2470913, 7332619, 7332619, 4994708, 4994708, 5733806, 5733806, 617361, 617361, 4045888, 4045888, 1606997, 1606997, 2789371, 2789371, 3111134, 3111134, 4393523, 4393523, 8032617, 8032617, 5294884, 5294884, 3664000, 3664000, 4810170, 4810170, 1420027, 1420027, 7931077, 7931077, 6477754, 6477754, 8084197, 8084197, 877278, 877278, 2313761, 2313761, 3712893, 3712893, 1561145, 1561145, 3665588, 3665588, 1510481, 1510481, 8015192, 8015192, 137813, 137813, 164464, 164464, 7431167, 7431167, 7965223, 7965223, 1098301, 1098301, 2993880, 2993880, 4786494, 4786494, 1392995, 1392995, 3504379, 3504379, 677838, 677838, 2785559, 2785559, 1039786, 1039786, 7146626, 7146626, 752029, 752029, 6736961, 6736961, 1161392, 1161392, 2911562, 2911562, 3069977, 3069977, 6430153, 6430153, 579657, 579657, 2106820, 2106820, 7752073, 7752073, 5993138, 5993138, 4420079, 4420079, 7698157, 7698157, 5724708, 5724708, 190415, 190415, 24094, 24094, 2936438, 2936438]

/-- `bit_reverse nttI7`. -/
def nttBr2 : List Nat :=
  [3670151, 3279280, 2429961, 3665588, 911602, 1606997, 3481192, 752029, 4373340, 1497411, 3120916, 2993880, 2666335, 1420027, 989378, 7752073, 1941954, 2753753, 7770002, 164464, 3217042, 8032617, 2499090, 3069977, 7888818, 4994708, 7709677, 677838, 1802999, 877278, 7956354, 5724708, 6731923, 6446958, 3415041, 8015192, 1683129, 3111134, 2033144, 1161392, 103775, 2470913, 8206213, 1392995, 3018081, 6477754, 549725, 4420079, 7594190, 7276592, 2028483, 7965223, 847857, 3664000, 1122468, 579657, 3447701, 617361, 3326854, 1039786, 7763900, 3712893, 6263108, 24094, 7942507, 4615573, 6063973, 1510481, 5254747, 2789371, 726420, 6736961, 3269403, 4344027, 6514298, 4786494, 6478465, 7931077, 5529720, 5993138, 3461704, 3405873, 539937, 7431167, 3093052, 5294884, 2913570, 6430153, 1959192, 5733806, 1531957, 2785559, 3903494, 2313761, 225771, 190415, 1353094, 1720940, 7024, 137813, 4454099, 4393523, 8042356, 2911562, 5574525, 7332619, 3727217, 3504379, 5526145, 8084197, 2338105, 7698157, 6587063, 8192998, 3582657, 1098301, 477558, 4810170, 6108710, 2106820, 3652237, 4045888, 5130752, 7146626, 355875, 1561145, 1628139, 2936438, 783282, 3279280, 2429961, 3665588, 911602, 1606997, 3481192, 752029, 4373340, 1497411, 3120916, 2993880, 2666335, 1420027, 989378, 7752073, 1941954, 2753753, 7770002, 164464, 3217042, 8032617, 2499090, 3069977, 7888818, 4994708, 7709677, 677838, 1802999, 877278, 7956354, 5724708, 6731923, 6446958, 3415041, 8015192, 1683129, 3111134, 2033144, 1161392, 103775, 2470913, 8206213, 1392995, 3018081, 6477754, 549725, 4420079, 7594190, 7276592, 2028483, 7965223, 847857, 3664000, 1122468, 579657, 3447701, 617361, 3326854, 1039786, 7763900, 3712893, 6263108, 24094, 7942507, 4615573, 6063973, 1510481, 5254747, 2789371, 726420, 6736961, 3269403, 4344027, 6514298, 4786494, 6478465, 7931077, 5529720, 5993138, 3461704, 3405873, 539937, 7431167, 3093052, 5294884, 2913570, 6430153, 1959192, 5733806, 1531957, 2785559, 3903494, 2313761, 225771, 190415, 1353094, 1720940, 7024, 137813, 4454099, 4393523, 8042356, 2911562, 5574525, 7332619, 3727217, 3504379, 5526145, 8084197, 2338105, 7698157, 6587063, 8192998, 3582657, 1098301, 477558, 4810170, 6108710, 2106820, 3652237, 4045888, 5130752, 7146626, 355875, 1561145, 1628139, 2936438]

/-- The final result of `ntt_inverse (ntt_forward nttP0)`. -/
def nttR : List Nat :=
  [4291073721, 4290165230, 4291450824, 4294520696, 4288748935, 4294018082, 4287922665, 4290314559, 4289612135, 4293415954, 4291677083, 4290658805, 4288999493, 4288075204, 4288630872, 4289931772, 4290717369, 4291135160, 4291352510, 4289662841, 4286881938, 4288649076, 4290850881, 4287946714, 4290282559, 4288393063, 4289841830, 4292352685, 4292537450, 4291696515, 4287216465, 4294348202, 4293193586, 4292482494, 4291391584, 4287393078, 4286778039, 4290774327, 4289496696, 4289485622, 4286636446, 4294460847, 4289322559, 4288417940, 4288542695, 4288381735, 4289635520, 4291969670, 4288358424, 4293791463, 4292213270, 4294654824, 4291507788, 4290210493, 4287737083, 4292435564, 4288698235, 4291590457, 4294641385, 4288745718, 4290854483, 4287585384, 4292348245, 4293763997, 4293814371, 4290123458, 4289462618, 4291801835, 4290434569, 4290306581, 4288777903, 4290550357, 4290777808, 4294846120, 4287955599, 4288475957, 4292654694, 4293969211, 4292269367, 4292398170, 4289933136, 4291986492, 4292621711, 4288497063, 4292146935, 4292330178, 4293440432, 4288835214, 4288869354, 4294428781, 4289044436, 4291654510, 4293567790, 4289784247, 4294387741, 4287420377, 4289991545, 4293400538, 4287286509, 4290279763, 4290518993, 4291071258, 4293678102, 4293183155, 4293894979, 4293198909, 4294462270, 4289366023, 4286661199, 4288947474, 4288562898, 4289667952, 4293931547, 4294131706, 4293502487, 4287370134, 4292734289, 4287235795, 4287673930, 4293026830, 4292501242, 4290527276, 4289163201, 4292314305, 4290223296, 4288009684, 4287061068, 4293532434, 4290303968, 4290165230, 4291450824, 4294520696, 4288748935, 4294018082, 4287922665, 4290314559, 4289612135, 4293415954, 4291677083, 4290658805, 4288999493, 4288075204, 4288630872, 4289931772, 4290717369, 4291135160, 4291352510, 4289662841, 4286881938, 4288649076, 4290850881, 4287946714, 4290282559, 4288393063, 4289841830, 4292352685, 4292537450, 4291696515, 4287216465, 4294348202, 4293193586, 4292482494, 4291391584, 4287393078, 4286778039, 4290774327, 4289496696, 4289485622, 4286636446, 4294460847, 4289322559, 4288417940, 4288542695, 4288381735, 4289635520, 4291969670, 4288358424, 4293791463, 4292213270, 4294654824, 4291507788, 4290210493, 4287737083, 4292435564, 4288698235, 4291590457, 4294641385, 4288745718, 4290854483, 4287585384, 4292348245, 4293763997, 4293814371, 4290123458, 4289462618, 4291801835, 4290434569, 4290306581, 4288777903, 4290550357, 4290777808, 4294846120, 4287955599, 4288475957, 4292654694, 4293969211, 4292269367, 4292398170, 4289933136, 4291986492, 4292621711, 4288497063, 4292146935, 4292330178, 4293440432, 4288835214, 4288869354, 4294428781, 4289044436, 4291654510, 4293567790, 4289784247, 4294387741, 4287420377, 4289991545, 4293400538, 4287286509, 4290279763, 4290518993, 4291071258, 4293678102, 4293183155, 4293894979, 4293198909, 4294462270, 4289366023, 4286661199, 4288947474, 4288562898, 4289667952, 4293931547, 4294131706, 4293502487, 4287370134, 4292734289, 4287235795, 4287673930, 4293026830, 4292501242, 4290527276, 4289163201, 4292314305, 4290223296, 4288009684, 4287061068, 4293532434]


set_option maxRecDepth 100000 in
theorem ntt_br_step : bit_reverse nttP0 = nttBr := by decide

set_option maxRecDepth 100000 in
theorem ntt_fwd_step1 : nttForwardLevel 2 (nttBr, 1) = (nttF1, 129) := by decide

set_option maxRecDepth 100000 in
theorem ntt_fwd_step2 : nttForwardLevel 4 (nttF1, 129) = (nttF2, 193) := by decide

set_option maxRecDepth 100000 in
theorem ntt_fwd_step3 : nttForwardLevel 8 (nttF2, 193) = (nttF3, 225) := by decide

set_option maxRecDepth 100000 in
theorem ntt_fwd_step4 : nttForwardLevel 16 (nttF3, 225) = (nttF4, 241) := by decide

set_option maxRecDepth 100000 in
theorem ntt_fwd_step5 : nttForwardLevel 32 (nttF4, 241) = (nttF5, 249) := by decide

set_option maxRecDepth 100000 in
theorem ntt_fwd_step6 : nttForwardLevel 64 (nttF5, 249) = (nttF6, 253) := by decide

set_option maxRecDepth 100000 in
theorem ntt_fwd_step7 : nttForwardLevel 128 (nttF6, 253) = (nttF7, 255) := by decide

set_option maxRecDepth 100000 in
theorem ntt_fwd_step8 : nttForwardLevel 256 (nttF7, 255) = (nttF8, 256) := by decide

set_option maxRecDepth 100000 in
theorem ntt_inv_step1 : nttInverseLevel 128 (nttF8, 127) = (nttI1, 125) := by decide

set_option maxRecDepth 100000 in
theorem ntt_inv_step2 : nttInverseLevel 64 (nttI1, 125) = (nttI2, 121) := by decide

set_option maxRecDepth 100000 in
theorem ntt_inv_step3 : nttInverseLevel 32 (nttI2, 121) = (nttI3, 113) := by decide

set_option maxRecDepth 100000 in
theorem ntt_inv_step4 : nttInverseLevel 16 (nttI3, 113) = (nttI4, 97) := by decide

set_option maxRecDepth 100000 in
theorem ntt_inv_step5 : nttInverseLevel 8 (nttI4, 97) = (nttI5, 65) := by decide

set_option maxRecDepth 100000 in
theorem ntt_inv_step6 : nttInverseLevel 4 (nttI5, 65) = (nttI6, 1) := by decide

set_option maxRecDepth 100000 in
theorem ntt_inv_step7 : nttInverseLevel 2 (nttI6, 1) = (nttI7, 4294967295) := by decide

set_option maxRecDepth 100000 in
theorem ntt_br2_step : bit_reverse nttI7 = nttBr2 := by decide

set_option maxRecDepth 100000 in
theorem ntt_final_map_step :
    nttBr2.map
        (fun x => ((montgomery_reduce ((x : Int) * (n_inv : Int))).emod (2 ^ 32)).toNat) =
      nttR := by
  decide

theorem ntt_forward_eval : ntt_forward nttP0 = nttF8 := by
  rw [ntt_forward]
  simp only [List.foldl_cons, List.foldl_nil]
  rw [ntt_br_step, ntt_fwd_step1, ntt_fwd_step2, ntt_fwd_step3, ntt_fwd_step4,
    ntt_fwd_step5, ntt_fwd_step6, ntt_fwd_step7, ntt_fwd_step8]

theorem ntt_inverse_eval : ntt_inverse nttF8 = nttR := by
  rw [ntt_inverse]
  simp only [List.foldl_cons, List.foldl_nil]
  rw [ntt_inv_step1, ntt_inv_step2, ntt_inv_step3, ntt_inv_step4, ntt_inv_step5,
    ntt_inv_step6, ntt_inv_step7]
  simp only [ntt_br2_step, ntt_final_map_step]

set_option maxRecDepth 10000 in
/-- C2: the NTT round trip FAILS on the source code. The first-level forward
butterfly uses `zetas_[1] = zetas_ml_dsa[0] = 0` (and every block with
k ≥ 128 reads a zero table entry), so `u + t` and `u − t` both collapse to
`u` and the transform is not invertible: at p = (1, 0, …, 0) the inverse of
the forward transform is a different vector (its entries are not even
reduced below q). -/
theorem ntt_roundtrip_fails :
    ntt_inverse (ntt_forward nttP0) ≠ nttP0 := by
  rw [ntt_forward_eval, ntt_inverse_eval]
  decide

/-! ## Input validation and the sign/verify entry points (claims C1 and C10).

The `InputValidator` implementation is not present in `src/`; its behaviour is
pinned by the tests in `src/unnamed/part_011` (lines 26-35: the empty message
and any message of more than `MAX_MESSAGE_SIZE` bytes give
`SecurityError::INVALID_INPUT_SIZE`, a 1000-byte message gives `SUCCESS`) and
by `src/windows/sign/tests/test_integration.cpp` (lines 183-204: after setup,
`sign_message` and `verify_signature` both THROW on the empty message). -/

/-- Modelled from the spec: the `SecurityError` codes named by the error
taxonomy and exercised by the tests in `src/unnamed/part_011`. -/
inductive SecurityError where
  | SUCCESS
  | INVALID_INPUT_SIZE
  | INVALID_KEY_FORMAT
  | INVALID_PARAMETERS
  | INVALID_CONTEXT
  | BOUNDS_CHECK_FAILURE
  | TIMING_ATTACK_DETECTED
  | MEMORY_ALLOCATION_FAILED
  deriving DecidableEq, Repr

/-- Modelled from the spec: the maximum accepted message size in bytes
(the macOS test constructs `1024 * 1024 + 1` bytes as the oversized case). -/
def MAX_MESSAGE_SIZE : Nat := 1048576

/-- Modelled from the spec: `InputValidator::validate_message_size`.  The
tests in `src/unnamed/part_011` pin: empty → `INVALID_INPUT_SIZE`,
`MAX_MESSAGE_SIZE + 1` bytes → `INVALID_INPUT_SIZE`, 1000 bytes →
`SUCCESS`. -/
def validate_message_size (message : List Nat) : SecurityError :=
  if message.length = 0 then SecurityError.INVALID_INPUT_SIZE
  else if MAX_MESSAGE_SIZE < message.length then SecurityError.INVALID_INPUT_SIZE
  else SecurityError.SUCCESS

/-- Modelled from the spec: `sign_message` validates the message size first
and throws (`Except.error`) on failure; on success it runs the signing core,
abstracted here as a total function `core`. -/
def sign_message (core : List Nat → List Nat) (message : List Nat) :
    Except SecurityError (List Nat) :=
  match validate_message_size message with
  | SecurityError.SUCCESS => Except.ok (core message)
  | e => Except.error e

/-- Modelled from the spec: `verify_signature` validates the message size
first and throws (`Except.error`) on failure — the integration test
`EmptyMessageAfterSetup` EXPECTS the throw — and on success returns the
boolean verdict of the verification core `core`. -/
def verify_signature (core : List Nat → List Nat → List Nat → Bool)
    (public_key signature message : List Nat) : Except SecurityError Bool :=
  match validate_message_size message with
  | SecurityError.SUCCESS => Except.ok (core public_key signature message)
  | e => Except.error e

/-- C1 counterexample: verify is NOT total over untrusted inputs — on the
empty message it throws (`Except.error INVALID_INPUT_SIZE`) instead of
returning `false`, exactly as the integration test
`EmptyMessageAfterSetup` expects. -/
theorem verify_signature_throws_on_empty :
    verify_signature (fun _ _ _ => false) [] [] [] =
        Except.error SecurityError.INVALID_INPUT_SIZE ∧
      verify_signature (fun _ _ _ => false) [] [] [] ≠ Except.ok false := by
  refine ⟨rfl, ?_⟩
  intro h
  exact Except.noConfusion h

/-- C1 (amended): verify returns the boolean verdict of the verification core
only on messages passing size validation (nonempty and at most
`MAX_MESSAGE_SIZE` bytes); outside that range it throws
`INVALID_INPUT_SIZE` rather than returning `false`. -/
theorem verify_signature_amended (core : List Nat → List Nat → List Nat → Bool)
    (public_key signature message : List Nat)
    (hne : 0 < message.length) (hle : message.length ≤ MAX_MESSAGE_SIZE) :
    verify_signature core public_key signature message =
      Except.ok (core public_key signature message) := by
  unfold verify_signature validate_message_size
  rw [if_neg (by omega), if_neg (by omega)]

theorem verify_signature_amended_witness :
    0 < [(37 : Nat)].length ∧ [(37 : Nat)].length ≤ MAX_MESSAGE_SIZE ∧
      verify_signature (fun _ _ _ => true) [1] [2] [37] = Except.ok true :=
  ⟨by decide, by decide,
    verify_signature_amended (fun _ _ _ => true) [1] [2] [37]
      (by decide) (by decide)⟩

/-- C10: sign imposes the (spec-undocumented) message-size precondition — the
empty message and any message longer than `MAX_MESSAGE_SIZE` are rejected
with `INVALID_INPUT_SIZE` instead of being signed. -/
theorem sign_message_rejects_bad_sizes (core : List Nat → List Nat)
    (message : List Nat)
    (h : message.length = 0 ∨ MAX_MESSAGE_SIZE < message.length) :
    sign_message core message = Except.error SecurityError.INVALID_INPUT_SIZE := by
  unfold sign_message validate_message_size
  rcases h with h | h
  · rw [if_pos h]
  · rw [if_neg (by omega), if_pos h]

theorem sign_message_rejects_bad_sizes_witness :
    ([] : List Nat).length = 0 ∧
      sign_message (fun _ => [0]) [] =
        Except.error SecurityError.INVALID_INPUT_SIZE :=
  ⟨rfl, sign_message_rejects_bad_sizes (fun _ => [0]) [] (Or.inl rfl)⟩

end ColorSign
